import Mathlib

/-!
Verification of the container network context of lib/portlayer/network
(context.go).  Go code is shallowly embedded: machine state (scopes,
containers, aliases, the default bridge pool, the bridge link and the KV
store) is passed explicitly, fallible operations return `Except`, and Go
maps become association lists whose list order stands for the (caller
visible) iteration order.  Parts of the repository that context.go uses
but whose sources are not available (the AddressSpace allocator, the
Scope/Endpoint/Container internals, the uid and port helpers) are
modelled from the specification document and are marked as such.
-/

namespace VicNet

instance {ε α : Type} [DecidableEq ε] [DecidableEq α] : DecidableEq (Except ε α) := by
  intro a b
  cases a <;> cases b
  case error.error x y =>
    exact if h : x = y then .isTrue (by rw [h]) else .isFalse (by simp [h])
  case error.ok x y => exact .isFalse (by simp)
  case ok.error x y => exact .isFalse (by simp)
  case ok.ok x y =>
    exact if h : x = y then .isTrue (by rw [h]) else .isFalse (by simp [h])

/-- Association-list lookup, mirroring a Go `m[k]` read. -/
def alookup {α : Type} (k : String) : List (String × α) → Option α
| [] => none
| (k', v) :: rest => if k' = k then some v else alookup k rest

/-- Association-list update, mirroring a Go `m[k] = v` write: replaces the
binding if the key is present, otherwise appends it. -/
def aput {α : Type} (k : String) (v : α) : List (String × α) → List (String × α)
| [] => [(k, v)]
| (k', v') :: rest => if k' = k then (k, v) :: rest else (k', v') :: aput k v rest

/-- Association-list deletion, mirroring Go `delete(m, k)`: the key is
absent afterwards. -/
def aerase {α : Type} (k : String) : List (String × α) → List (String × α)
| [] => []
| (k', v) :: rest => if k' = k then aerase k rest else (k', v) :: aerase k rest

/-- Keys of an association list. -/
def akeys {α : Type} (l : List (String × α)) : List String :=
  l.map Prod.fst

theorem alookup_aput_self {α : Type} (k : String) (v : α) (l : List (String × α)) :
    alookup k (aput k v l) = some v := by
  induction l with
  | nil => simp [aput, alookup]
  | cons hd tl ih =>
    by_cases h : hd.1 = k
    · simp [aput, h, alookup]
    · simp [aput, h, alookup, ih]

theorem alookup_aput_ne {α : Type} (k k' : String) (v : α) (l : List (String × α))
    (h : k' ≠ k) : alookup k' (aput k v l) = alookup k' l := by
  induction l with
  | nil => simp [aput, alookup, Ne.symm h]
  | cons hd tl ih =>
    by_cases hk : hd.1 = k
    · simp [aput, hk, alookup, Ne.symm h]
    · simp [aput, hk, alookup, ih]

theorem alookup_aerase_self {α : Type} (k : String) (l : List (String × α)) :
    alookup k (aerase k l) = none := by
  induction l with
  | nil => simp [aerase, alookup]
  | cons hd tl ih =>
    obtain ⟨a, b⟩ := hd
    by_cases h : a = k
    · simpa [aerase, h] using ih
    · simp [aerase, h, alookup, ih]

theorem alookup_aerase_ne {α : Type} (k k' : String) (l : List (String × α))
    (h : k' ≠ k) : alookup k' (aerase k l) = alookup k' l := by
  induction l with
  | nil => simp [aerase]
  | cons hd tl ih =>
    obtain ⟨a, b⟩ := hd
    by_cases ha : a = k
    · simp [aerase, ha, alookup, Ne.symm h, ih]
    · simp [aerase, ha, alookup, ih]

/-! ## IPv4 model

IPv4 addresses are natural numbers below `2^32`; `0` is the unspecified
address `0.0.0.0` (`ip.IsUnspecifiedIP`).  A `net.IPNet` is a base
address together with a prefix length; all networks handled by the code
are CIDR aligned, for which Go's mask-and-compare `Contains` coincides
with interval membership. -/

def ipv4 (a b c d : Nat) : Nat := ((a * 256 + b) * 256 + c) * 256 + d

/-! Character-list implementations of the string primitives the Go code
uses (`strings.Split` on a one-character separator, `strings.Contains`,
prefix test, `strconv.Atoi`); spelled out structurally so that concrete
runs reduce inside the kernel. -/

def splitCharAux (c : Char) : List Char → List Char → List (List Char)
| [], acc => [acc.reverse]
| x :: xs, acc =>
  if x == c then acc.reverse :: splitCharAux c xs []
  else splitCharAux c xs (x :: acc)

/-- `strings.Split` on a single-character separator. -/
def splitOnChar (c : Char) (s : String) : List String :=
  (splitCharAux c s.data []).map (fun l => ⟨l⟩)

/-- `strings.Contains` for a single character. -/
def containsChar (s : String) (c : Char) : Bool :=
  s.data.any (fun x => x == c)

/-- `strings.HasPrefix`. -/
def isPrefixOfStr (p s : String) : Bool :=
  p.data.isPrefixOf s.data

def charDigit (c : Char) : Option Nat :=
  if 48 ≤ c.toNat && c.toNat ≤ 57 then some (c.toNat - 48) else none

def digitsToNat : List Char → Nat → Option Nat
| [], acc => some acc
| c :: cs, acc =>
  match charDigit c with
  | some d => digitsToNat cs (acc * 10 + d)
  | none => none

/-- `strconv.Atoi` restricted to unsigned decimal strings (the only
inputs the code feeds it). -/
def toNatQ (s : String) : Option Nat :=
  match s.data with
  | [] => none
  | cs => digitsToNat cs 0

structure IPNet where
  base : Nat
  prefixLen : Nat
deriving DecidableEq, Repr

/-- Number of addresses covered by the network. -/
def IPNet.size (n : IPNet) : Nat := 2 ^ (32 - n.prefixLen)

/-- `net.IPNet.Contains` for CIDR-aligned networks. -/
def IPNet.contains (n : IPNet) (x : Nat) : Bool :=
  decide (n.base ≤ x) && decide (x < n.base + n.size)

/-- `highestIP4` from the network package: the last address of a subnet. -/
def highestIP4 (n : IPNet) : Nat := n.base + n.size - 1

/-- `ip.IsUnspecifiedIP`: the zero address. -/
def isUnspecifiedIP (x : Nat) : Bool := x == 0

/-- `ip.IsUnspecifiedSubnet` on an optional subnet: absent, or zero base. -/
def isUnspecifiedSubnet : Option IPNet → Bool
| none => true
| some n => n.base == 0

/-- Modelled from the spec: `ip.IsRoutableIP` (pkg/ip is not in the
sources).  A gateway must lie inside the subnet and be neither the
all-zeros nor the all-ones address ("first routable, after all-zeros"). -/
def isRoutableIP (x : Nat) (n : IPNet) : Bool :=
  n.contains x && !(x == n.base) && !(x == highestIP4 n)

/-- `ip.AllZerosAddr`. -/
def allZerosAddr (n : IPNet) : Nat := n.base

/-- `ip.AllOnesAddr`. -/
def allOnesAddr (n : IPNet) : Nat := highestIP4 n

/-! ## AddressSpace

Modelled from the spec (§4.1); the allocator sources are not under
src/.  An `AddressSpace` covers an inclusive address range (optionally
remembering the subnet it was built from) and tracks live carved
children as ranges plus individually reserved addresses. -/

structure AddressSpace where
  network : Option IPNet
  firstIP : Nat
  lastIP : Nat
  reservedRanges : List (Nat × Nat)
  reservedIPs : List Nat
deriving DecidableEq, Repr

/-- `NewAddressSpaceFromNetwork`. -/
def newAddressSpaceFromNetwork (n : IPNet) : AddressSpace :=
  { network := some n, firstIP := n.base, lastIP := highestIP4 n,
    reservedRanges := [], reservedIPs := [] }

/-- `NewAddressSpaceFromRange` over an inclusive range. -/
def newAddressSpaceFromRange (first last : Nat) : AddressSpace :=
  { network := none, firstIP := first, lastIP := last,
    reservedRanges := [], reservedIPs := [] }

/-- An address is reserved when it is individually reserved or covered by
a live child range. -/
def AddressSpace.isReserved (sp : AddressSpace) (x : Nat) : Bool :=
  sp.reservedIPs.any (fun r => r == x) ||
    sp.reservedRanges.any (fun r => decide (r.1 ≤ x) && decide (x ≤ r.2))

/-- Modelled from the spec: `ReserveIP4` fails when the address is out of
range or already reserved. -/
def AddressSpace.reserveIP4 (sp : AddressSpace) (x : Nat) :
    Except String AddressSpace :=
  if x < sp.firstIP || sp.lastIP < x then .error "ip out of range"
  else if sp.isReserved x then .error "ip already reserved"
  else .ok { sp with reservedIPs := sp.reservedIPs ++ [x] }

/-- `ReleaseIP4`: drops an individual reservation (no-op when absent). -/
def AddressSpace.releaseIP4 (sp : AddressSpace) (x : Nat) : AddressSpace :=
  { sp with reservedIPs := sp.reservedIPs.eraseP (fun r => r == x) }

/-- Linear scan for the lowest free address, with enough fuel to cross
the whole space. -/
def AddressSpace.findFreeAux (sp : AddressSpace) : Nat → Nat → Option Nat
| 0, _ => none
| fuel + 1, x =>
  if sp.lastIP < x then none
  else if sp.isReserved x then sp.findFreeAux fuel (x + 1)
  else some x

/-- Lowest free address at or above `x`; `none` when the space is
exhausted. -/
def AddressSpace.findFreeFrom (sp : AddressSpace) (x : Nat) : Option Nat :=
  sp.findFreeAux (sp.lastIP + 1 - x) x

/-- Modelled from the spec: `ReserveNextIP4` returns the lowest free
address, lowest-address-first tie-break. -/
def AddressSpace.reserveNextIP4 (sp : AddressSpace) :
    Except String (Nat × AddressSpace) :=
  match sp.findFreeFrom sp.firstIP with
  | none => .error "address space exhausted"
  | some x => .ok (x, { sp with reservedIPs := sp.reservedIPs ++ [x] })

/-- Two inclusive ranges intersect. -/
def rangesOverlap (a b : Nat × Nat) : Bool :=
  decide (a.1 ≤ b.2) && decide (b.1 ≤ a.2)

/-- Modelled from the spec: `ReserveIP4Range` carves `[first,last]` as a
child; fails when the range is not contained in the space or overlaps a
live child. -/
def AddressSpace.reserveIP4Range (sp : AddressSpace) (first last : Nat) :
    Except String (AddressSpace × AddressSpace) :=
  if first < sp.firstIP || sp.lastIP < last || last < first then
    .error "range not contained in address space"
  else if sp.reservedRanges.any (fun r => rangesOverlap r (first, last)) then
    .error "range overlaps a reserved range"
  else
    .ok (newAddressSpaceFromRange first last,
         { sp with reservedRanges := sp.reservedRanges ++ [(first, last)] })

/-- Modelled from the spec: `ReserveIP4Net` carves a subnet as a child
`AddressSpace`; fails when the subnet is not contained in the space or
overlaps a live child. -/
def AddressSpace.reserveIP4Net (sp : AddressSpace) (n : IPNet) :
    Except String (AddressSpace × AddressSpace) :=
  if n.base < sp.firstIP || sp.lastIP < highestIP4 n then
    .error "subnet not contained in address space"
  else if sp.reservedRanges.any (fun r => rangesOverlap r (n.base, highestIP4 n)) then
    .error "subnet overlaps a reserved range"
  else
    .ok (newAddressSpaceFromNetwork n,
         { sp with reservedRanges := sp.reservedRanges ++ [(n.base, highestIP4 n)] })

/-- `ReleaseIP4Range`: releases a child's whole span back to the parent. -/
def AddressSpace.releaseIP4Range (sp child : AddressSpace) : AddressSpace :=
  { sp with reservedRanges :=
      sp.reservedRanges.eraseP (fun r => r == (child.firstIP, child.lastIP)) }

/-- Helper for `NextIP4Net`: first free aligned block among `fuel`
candidates starting at `base`, stepping by `bs`. -/
def AddressSpace.findFreeBlock (sp : AddressSpace) (base bs : Nat) :
    Nat → Option Nat
| 0 => none
| fuel + 1 =>
  if sp.lastIP + 1 < base + bs then none
  else if sp.reservedRanges.any (fun r => rangesOverlap r (base, base + bs - 1)) ||
          sp.reservedIPs.any (fun x => decide (base ≤ x) && decide (x ≤ base + bs - 1)) then
    sp.findFreeBlock (base + bs) bs fuel
  else some base

/-- Modelled from the spec: `NextIP4Net` computes (without reserving) the
next free `/maskOnes` subnet of the pool. -/
def AddressSpace.nextIP4Net (sp : AddressSpace) (maskOnes : Nat) :
    Except String IPNet :=
  let bs := 2 ^ (32 - maskOnes)
  match sp.findFreeBlock sp.firstIP bs ((sp.lastIP + 1 - sp.firstIP) / bs + 1) with
  | none => .error "no free subnet in pool"
  | some base => .ok { base := base, prefixLen := maskOnes }

/-! ## Errors (§7): duplicate and not-found are structurally
distinguishable; everything else is a validation error carried
verbatim. -/

inductive NetErr where
| duplicateResource (resID : String)
| resourceNotFound (msg : String)
| invalidArg (msg : String)
| kvPutFailed
| kvDeleteFailed
| panicErr (msg : String)
deriving DecidableEq, Repr

/-- `executor.TrustLevel`. -/
inductive TrustLevel where
| unspecified
| openLevel
| peers
| published
| outbound
| closed
deriving DecidableEq, Repr

def bridgeScopeType : String := "bridge"
def externalScopeType : String := "external"

/-- Modelled from the spec: uid truncation to the docker-style short id
(pkg/uid is not in the sources). -/
def uidTruncate (s : String) : String := s.take 12

/-- `uid.Parse`; the nil UID is the empty string. -/
def uidParse (s : String) : String := s

/-! ## Endpoint (§4.3) — modelled from the spec; endpoint sources are not
under src/. -/

structure Port where
  proto : String
  portNum : Nat
deriving DecidableEq, Repr

/-- Modelled from the spec: `ParsePort` accepts `"num/proto"`, failing on
malformed input. -/
def parsePort (s : String) : Except String Port :=
  match splitOnChar '/' s with
  | [n, p] =>
    match toNatQ n with
    | some num => .ok { proto := p, portNum := num }
    | none => .error "malformed port"
  | _ => .error "malformed port"

structure AliasEntry where
  who : String
  what : String
deriving DecidableEq, Repr

/-- The sentinel returned by `addAlias` for empty names. -/
def badAlias : AliasEntry := { who := "", what := "" }

/-- `scopedName()` = `"{scope}:{who}.{what}"`. -/
def AliasEntry.scopedName (a : AliasEntry) (scopeName : String) : String :=
  scopeName ++ ":" ++ a.who ++ "." ++ a.what

structure Endpoint where
  containerID : String
  containerName : String
  scopeName : String
  ip : Nat
  static : Bool
  ports : List Port
  aliases : List AliasEntry
deriving DecidableEq, Repr

/-- Modelled from the spec: `Endpoint.addAlias(who, what)` returns a new
alias entry or `badAlias` on empty names; duplicates are reported via the
`exists` flag. -/
def Endpoint.addAlias (e : Endpoint) (who what : String) :
    AliasEntry × Bool × Endpoint :=
  if who = "" || what = "" then (badAlias, false, e)
  else
    let a : AliasEntry := { who := who, what := what }
    if e.aliases.contains a then (a, true, e)
    else (a, false, { e with aliases := e.aliases ++ [a] })

/-- `getAliases(who)`: the alias entries declared under `who`. -/
def Endpoint.getAliases (e : Endpoint) (who : String) : List AliasEntry :=
  e.aliases.filter (fun a => a.who == who)

/-- Modelled from the spec: `addPort` idempotently inserts. -/
def Endpoint.addPort (e : Endpoint) (p : Port) : Endpoint :=
  if e.ports.contains p then e else { e with ports := e.ports ++ [p] }

/-- §4.4: a container is identity only; its endpoints live on the
scopes. -/
structure Container where
  id : String
  name : String
deriving DecidableEq, Repr

/-! ## Scope (§4.2) — modelled from the spec; scope sources are not under
src/. -/

structure Scope where
  id : String
  name : String
  scopeType : String
  subnet : Option IPNet
  gateway : Nat
  dns : List Nat
  trust : TrustLevel
  internal : Bool
  builtin : Bool
  network : String
  spaces : List AddressSpace
  endpoints : List Endpoint
  scopeAliases : List (String × String)
  annotations : List (String × String)
deriving DecidableEq, Repr

/-- `Scope.isDynamic()`: external and subnet unspecified. -/
def Scope.isDynamic (s : Scope) : Bool :=
  s.scopeType == externalScopeType && isUnspecifiedSubnet s.subnet

/-- `Contains` through a possibly unspecified scope subnet (a zero-value
`net.IPNet` contains nothing). -/
def subnetContainsO : Option IPNet → Nat → Bool
| none, _ => false
| some n, x => n.contains x

/-- Prefix length of a possibly absent subnet (mask of the zero-value
`net.IPNet`). -/
def prefixOf : Option IPNet → Nat
| none => 0
| some n => n.prefixLen

/-- First space that can hand out a next-free address. -/
def allocFromSpaces : List AddressSpace → Option (Nat × List AddressSpace)
| [] => none
| sp :: rest =>
  match sp.reserveNextIP4 with
  | .ok (x, sp') => some (x, sp' :: rest)
  | .error _ =>
    match allocFromSpaces rest with
    | some (x, rest') => some (x, sp :: rest')
    | none => none

/-- First space that accepts a specific reservation. -/
def reserveInSpaces : List AddressSpace → Nat → Option (List AddressSpace)
| [], _ => none
| sp :: rest, x =>
  match sp.reserveIP4 x with
  | .ok sp' => some (sp' :: rest)
  | .error _ => (reserveInSpaces rest x).map (fun rest' => sp :: rest')

/-- Reserve ignoring the outcome (Go drops these error results). -/
def reserveIgnore (sp : AddressSpace) (x : Nat) : AddressSpace :=
  match sp.reserveIP4 x with
  | .ok sp' => sp'
  | .error _ => sp

/-- Modelled from the spec: `Scope.AddContainer` — outside dynamic scopes
allocate the next free address when the endpoint IP is unspecified, or
reserve the proposed address; record the endpoint and seed the scope
alias entries for `"{scope}:{name}"` and `"{scope}:{short-id}"`. -/
def Scope.addContainer (s : Scope) (con : Container) (e : Endpoint) :
    Except NetErr (Scope × Endpoint) :=
  let seed := fun (sc : Scope) (e' : Endpoint) =>
    ({ sc with
        endpoints := sc.endpoints ++ [e'],
        scopeAliases :=
          aput (sc.name ++ ":" ++ con.name) con.id
            (aput (sc.name ++ ":" ++ uidTruncate con.id) con.id sc.scopeAliases) },
     e')
  if s.isDynamic then .ok (seed s e)
  else if e.ip == 0 then
    match allocFromSpaces s.spaces with
    | none => .error (.invalidArg "no available IP addresses")
    | some (x, spaces') => .ok (seed { s with spaces := spaces' } { e with ip := x })
  else
    match reserveInSpaces s.spaces e.ip with
    | none => .error (.invalidArg "requested IP address out of pool or in use")
    | some spaces' => .ok (seed { s with spaces := spaces' } e)

/-- Modelled from the spec: `Scope.RemoveContainer` releases the
endpoint's IP (unless dynamic or unspecified) and removes the endpoint
and its scope alias entries. -/
def Scope.removeContainer (s : Scope) (con : Container) :
    Except NetErr Scope :=
  match s.endpoints.find? (fun e => e.containerID == con.id) with
  | none => .error (.resourceNotFound "container not found on scope")
  | some e =>
    let spaces' :=
      if !s.isDynamic && !(e.ip == 0) then s.spaces.map (fun sp => sp.releaseIP4 e.ip)
      else s.spaces
    .ok { s with
          spaces := spaces',
          endpoints := s.endpoints.filter (fun e' => !(e'.containerID == con.id)),
          scopeAliases := s.scopeAliases.filter (fun kv => !(kv.2 == con.id)) }

/-- `Container.Endpoint(scope)`: the container's endpoint on a scope. -/
def containerEndpointOn (s : Scope) (cid : String) : Option Endpoint :=
  s.endpoints.find? (fun e => e.containerID == cid)

/-- `Container.Endpoints()`: all of the container's endpoints, gathered
from the scopes. -/
def containerEndpoints (scopes : List (String × Scope)) (cid : String) :
    List Endpoint :=
  scopes.foldr (fun kv acc => kv.2.endpoints.filter (fun e => e.containerID == cid) ++ acc) []

/-! ## Persistence and configuration -/

/-- The persisted scope record (§6): the port-group reference is not
serialized. -/
structure ScopeRecord where
  id : String
  name : String
  scopeType : String
  subnet : Option IPNet
  gateway : Nat
  dns : List Nat
  pools : List (Nat × Nat)
  trust : TrustLevel
  annotations : List (String × String)
  internal : Bool
deriving DecidableEq, Repr

/-- Modelled from the spec: `Scope.MarshalJSON` captures the §6 record;
in the model the record is kept structured rather than as bytes. -/
def marshalScope (s : Scope) : ScopeRecord :=
  { id := s.id, name := s.name, scopeType := s.scopeType, subnet := s.subnet,
    gateway := s.gateway, dns := s.dns,
    pools := s.spaces.map (fun sp => (sp.firstIP, sp.lastIP)),
    trust := s.trust, annotations := s.annotations, internal := s.internal }

/-- The injected KV capability, with fault flags standing for the
external store's behaviour. -/
structure KVState where
  store : List (String × ScopeRecord)
  putFails : Bool
  delFails : Bool
deriving DecidableEq, Repr

structure ContainerNetworkConfig where
  name : String
  netType : String
  gateway : Nat
  gatewayPrefix : Nat
  nameservers : List Nat
  trustLevel : TrustLevel
  pools : List (Nat × Nat)
deriving DecidableEq, Repr

structure Configuration where
  bridgeIPRange : Option IPNet
  bridgeNetworkWidth : Option Nat
  bridgeNetwork : String
  containerNetworks : List (String × ContainerNetworkConfig)
  portGroups : List String
deriving DecidableEq, Repr

/-- The `Context`: all state mutated under the context lock, plus the
observable state of the injected bridge link and KV store. -/
structure ContextState where
  config : Configuration
  defaultBridgePool : AddressSpace
  defaultBridgeMask : Nat
  scopes : List (String × Scope)
  containers : List (String × Container)
  aliases : List (String × List Container)
  defaultScopeName : String
  bridgeLink : List (Nat × Nat)
  kv : Option KVState
deriving DecidableEq, Repr

/-- `BridgeLink.AddrAdd`, tolerating "already exists". -/
def linkAddrAdd (link : List (Nat × Nat)) (a : Nat × Nat) : List (Nat × Nat) :=
  if link.contains a then link else link ++ [a]

/-- `BridgeLink.AddrDel`, tolerating "not assigned". -/
def linkAddrDel (link : List (Nat × Nat)) (a : Nat × Nat) : List (Nat × Nat) :=
  link.filter (fun a' => !(a' == a))

def scopeKey (sn : String) : String := "context.scopes." ++ sn

/-! ## Context scope operations (context.go) -/

/-- `reserveGateway` (context.go): verify or pick a routable gateway,
reserving it in the first pool that accepts it. -/
def reserveGateway (gateway : Nat) (subnet : Option IPNet)
    (spaces : List AddressSpace) : Except NetErr (Nat × List AddressSpace) :=
  if isUnspecifiedSubnet subnet then
    .error (.invalidArg "cannot reserve gateway for nil subnet")
  else
    let n := subnet.getD { base := 0, prefixLen := 0 }
    if !(isUnspecifiedIP gateway) then
      if !(isRoutableIP gateway n) then
        .error (.invalidArg "gateway address is not routable on network")
      else .ok (gateway, reserveFirstIn spaces gateway)
    else
      match spaces with
      | [] => .error (.invalidArg "could not reserve gateway address for network")
      | sp :: rest =>
        match sp.reserveNextIP4 with
        | .error e => .error (.invalidArg e)
        | .ok (g, sp') =>
          if !(isRoutableIP g n) then
            .error (.invalidArg "gateway address is not routable on network")
          else .ok (g, sp' :: rest)
where
  reserveFirstIn : List AddressSpace → Nat → List AddressSpace
  | [], _ => []
  | sp :: rest, x =>
    match sp.reserveIP4 x with
    | .ok sp' => sp' :: rest
    | .error _ => sp :: reserveFirstIn rest x

/-- `checkNetOverlap` (context.go): reject a subnet whose lowest or
highest address lies inside an existing scope's subnet. -/
def checkNetOverlap (scopes : List (String × Scope)) (subnet : IPNet) :
    Except NetErr Unit :=
  if scopes.any (fun kv =>
      subnetContainsO kv.2.subnet subnet.base ||
      subnetContainsO kv.2.subnet (highestIP4 subnet)) then
    .error (.invalidArg "subnet overlaps with scope subnet")
  else .ok ()

/-- `reserveSubnet` (context.go): carve from the default bridge pool when
possible, otherwise build a standalone space. -/
def reserveSubnet (c : ContextState) (subnet : IPNet) :
    Except NetErr (AddressSpace × Bool × ContextState) :=
  match checkNetOverlap c.scopes subnet with
  | .error e => .error e
  | .ok _ =>
    match c.defaultBridgePool.reserveIP4Net subnet with
    | .ok (space, pool') => .ok (space, true, { c with defaultBridgePool := pool' })
    | .error _ => .ok (newAddressSpaceFromNetwork subnet, false, c)

/-- Helper for `reservePools`: carve each declared pool out of the
space. -/
def reservePoolsAux (par : AddressSpace) :
    List AddressSpace → Except NetErr (List AddressSpace)
| [] => .ok []
| p :: rest =>
  let r := match p.network with
    | some n => par.reserveIP4Net n
    | none => par.reserveIP4Range p.firstIP p.lastIP
  match r with
  | .error e => .error (.invalidArg e)
  | .ok (child, par') => (reservePoolsAux par' rest).map (fun cs => child :: cs)

/-- `reservePools` (context.go): no declared pools means the whole space
is the single pool. -/
def reservePoolsGo (space : AddressSpace) (pools : List AddressSpace) :
    Except NetErr (List AddressSpace) :=
  if pools.isEmpty then .ok [space]
  else reservePoolsAux space pools

/-- Reserve the non-routable and DNS addresses in one pool, the way
`addScope` does (all error results are dropped): all-ones, all-zeros,
then every DNS entry different from the gateway. -/
def reserveHousekeeping (subnet : IPNet) (dns : List Nat) (gateway : Nat)
    (sp : AddressSpace) : AddressSpace :=
  dns.foldl
    (fun acc d => if d == gateway then acc else reserveIgnore acc d)
    (reserveIgnore (reserveIgnore sp (allOnesAddr subnet)) (allZerosAddr subnet))

/-- `addScope` (context.go): perform the IPAM reservations and install
the scope.  The pair result carries the context state after the
operation, including the deferred cleanup's releases on failure.  The
per-space releases in that cleanup act on address spaces that die with
the discarded scope; their only context-visible effect is releasing a
default-pool carve. -/
def addScope (c : ContextState) (s : Scope) :
    Except NetErr Scope × ContextState :=
  if (alookup s.name c.scopes).isSome then (.error (.duplicateResource s.name), c)
  else if isUnspecifiedSubnet s.subnet then
    -- subnet not specified (external networks): no reservations
    (.ok s, { c with scopes := aput s.name s c.scopes })
  else
    let subnet0 := s.subnet.getD { base := 0, prefixLen := 0 }
    match reserveSubnet c subnet0 with
    | .error e => (.error e, c)
    | .ok (space, defaultPool, c1) =>
      let cleanup := fun (c' : ContextState) =>
        if defaultPool then
          { c' with defaultBridgePool := c'.defaultBridgePool.releaseIP4Range space }
        else c'
      let subnet := space.network.getD subnet0
      match reservePoolsGo space s.spaces with
      | .error e => (.error e, cleanup c1)
      | .ok spaces1 =>
        let spaces2 := spaces1.map (reserveHousekeeping subnet s.dns s.gateway)
        match reserveGateway s.gateway (some subnet) spaces2 with
        | .error e => (.error e, cleanup c1)
        | .ok (gw, spaces3) =>
          let s' := { s with gateway := gw, spaces := spaces3, subnet := some subnet }
          (.ok s', { c1 with scopes := aput s'.name s' c1.scopes })

structure ScopeData where
  scopeType : String
  name : String
  subnet : Option IPNet
  gateway : Nat
  dns : List Nat
  trustLevel : TrustLevel
  pools : List (Option (Nat × Nat))
  annotations : List (String × String)
  internal : Bool
deriving DecidableEq, Repr

/-- Modelled from the spec: the `Scope` constructor records identity,
type, subnet, gateway, DNS, trust, internal flag and port-group
reference; pools and annotations are filled in by `newScopeCommon`. -/
def mkScope (id scopeType network : String) (sd : ScopeData) : Scope :=
  { id := id, name := sd.name, scopeType := scopeType, subnet := sd.subnet,
    gateway := sd.gateway, dns := sd.dns, trust := sd.trustLevel,
    internal := sd.internal, builtin := false, network := network,
    spaces := [], endpoints := [], scopeAliases := [], annotations := [] }

/-- Parse the declared pool strings (`ip.ParseRange`); `none` entries are
unparsable. -/
def parsePools : List (Option (Nat × Nat)) → Option (List AddressSpace)
| [] => some []
| none :: _ => none
| some (f, l) :: rest => (parsePools rest).map (fun cs => newAddressSpaceFromRange f l :: cs)

/-- `newScopeCommon` (context.go). -/
def newScopeCommon (c : ContextState) (id scopeType network : String)
    (sd : ScopeData) : Except NetErr Scope × ContextState :=
  match parsePools sd.pools with
  | none => (.error (.invalidArg ("invalid pool specified for scope " ++ sd.name)), c)
  | some spaces0 =>
    addScope c { mkScope id scopeType network sd with
                  spaces := spaces0, annotations := sd.annotations }

/-- Modelled from the spec: `uid.New` draws a fresh random UID; the model
derives one deterministically from the (unique) scope name. -/
def uidNew (sd : ScopeData) : String := "uid-" ++ sd.name

/-- `newBridgeScope` (context.go): auto-allocate the subnet from the
default bridge pool when unspecified, then add the gateway address to the
bridge link (failures there are tolerated and only logged). -/
def newBridgeScope (c : ContextState) (id : String) (sd : ScopeData) :
    Except NetErr Scope × ContextState :=
  if !(c.config.portGroups.contains c.config.bridgeNetwork) then
    (.error (.invalidArg "bridge network not set"), c)
  else
    let sdE : Except NetErr ScopeData :=
      if isUnspecifiedSubnet sd.subnet then
        match c.defaultBridgePool.nextIP4Net c.defaultBridgeMask with
        | .error e => .error (.invalidArg e)
        | .ok n => .ok { sd with subnet := some n }
      else .ok sd
    match sdE with
    | .error e => (.error e, c)
    | .ok sd' =>
      match newScopeCommon c id bridgeScopeType c.config.bridgeNetwork sd' with
      | (.error e, c') => (.error e, c')
      | (.ok s, c') =>
        (.ok s, { c' with
           bridgeLink := linkAddrAdd c'.bridgeLink (s.gateway, prefixOf s.subnet) })

/-- `newExternalScope` (context.go). -/
def newExternalScope (c : ContextState) (id : String) (sd : ScopeData) :
    Except NetErr Scope × ContextState :=
  if sd.pools.length > 0 &&
      (isUnspecifiedSubnet sd.subnet || isUnspecifiedIP sd.gateway) then
    (.error (.invalidArg "ipam cannot be specified without gateway and subnet for external network"), c)
  else if !(isUnspecifiedSubnet sd.subnet) &&
      (subnetContainsO c.defaultBridgePool.network (sd.subnet.getD { base := 0, prefixLen := 0 }).base ||
       subnetContainsO c.defaultBridgePool.network (highestIP4 (sd.subnet.getD { base := 0, prefixLen := 0 }))) then
    (.error (.invalidArg "external network cannot overlap with default bridge network"), c)
  else if !(c.config.portGroups.contains sd.name) then
    (.error (.invalidArg ("no network info for external scope " ++ sd.name)), c)
  else newScopeCommon c id externalScopeType sd.name sd

/-- `Context.newScope` (context.go): sanity checks and dispatch on the
scope type. -/
def newScopeGo (c : ContextState) (sd : ScopeData) :
    Except NetErr Scope × ContextState :=
  if sd.name = "" then (.error (.invalidArg "scope name must not be empty"), c)
  else if (alookup sd.name c.scopes).isSome then
    (.error (.duplicateResource sd.name), c)
  else if sd.scopeType == bridgeScopeType then newBridgeScope c (uidNew sd) sd
  else if sd.scopeType == externalScopeType then newExternalScope c (uidNew sd) sd
  else (.error (.invalidArg "scope type not supported"), c)

/-- `Context.deleteScope` (context.go): for bridge scopes remove the
gateway address from the bridge link, then drop the scope from the map.
Note: nothing is released back to `defaultBridgePool` here. -/
def deleteScopeGo (c : ContextState) (s : Scope) : ContextState :=
  let c1 :=
    if s.scopeType == bridgeScopeType then
      { c with bridgeLink := linkAddrDel c.bridgeLink (s.gateway, prefixOf s.subnet) }
    else c
  { c1 with scopes := aerase s.name c1.scopes }

/-- `Context.NewScope` (context.go): create the scope, then persist it;
if the put fails the creation fails and `deleteScope` runs. -/
def ctxNewScope (c : ContextState) (sd : ScopeData) :
    Except NetErr Scope × ContextState :=
  match newScopeGo c sd with
  | (.error e, c') => (.error e, c')
  | (.ok s, c') =>
    match c'.kv with
    | none => (.ok s, c')
    | some kv =>
      if kv.putFails then (.error .kvPutFailed, deleteScopeGo c' s)
      else
        (.ok s, { c' with kv := some { kv with
           store := aput (scopeKey s.name) (marshalScope s) kv.store } })

/-- `findScopes` (context.go): exact name, then UID prefix match; the
literal `"default"` resolves to the default scope. -/
def findScopesGo (c : ContextState) (idName : Option String) :
    Except NetErr (List Scope) :=
  match idName with
  | some nm =>
    if nm = "" then .ok (c.scopes.map Prod.snd)
    else if nm = "default" then
      .ok ((alookup c.defaultScopeName c.scopes).toList)
    else
      match alookup nm c.scopes with
      | some s => .ok [s]
      | none =>
        let ss := (c.scopes.map Prod.snd).filter (fun s => isPrefixOfStr nm s.id)
        if ss.length > 0 then .ok ss
        else .error (.resourceNotFound ("scope " ++ nm ++ " not found"))
  | none => .ok (c.scopes.map Prod.snd)

/-- `resolveScope` (context.go): a unique match, else `(nil, err)` — with
the quirk that a non-unique match yields `(nil, nil)`. -/
def resolveScopeGo (c : ContextState) (nm : String) :
    Except NetErr (Option Scope) :=
  match findScopesGo c (some nm) with
  | .error e => .error e
  | .ok ss => if ss.length = 1 then .ok ss.head? else .ok none

/-! ## Handles (`exec.Handle` / `executor.NetworkEndpoint`)

Modelled from the spec and the fields context.go uses; the executor
package is not under src/.  The networks map keeps Go's map as an
association list whose order stands for the iteration order. -/

structure DeviceChange where
  op : String
  portGroup : String
  slot : Nat
deriving DecidableEq, Repr

structure NetworkEndpoint where
  id : String
  name : String
  networkAliases : List String
  netType : String
  trust : TrustLevel
  poolsDecl : List (Nat × Nat)
  isDefault : Bool
  gatewayNet : IPNet
  nameservers : List Nat
  static : Bool
  ipNet : Option IPNet
  assignedIP : Nat
  ports : List String
deriving DecidableEq, Repr

structure Handle where
  execID : String
  execName : String
  networks : List (String × NetworkEndpoint)
  deviceChanges : List DeviceChange
deriving DecidableEq, Repr

/-- `Context.container(h)` (context.go): reject the nil UID, then look
the long id up in the containers index. -/
def ctxContainerOfHandle (c : ContextState) (h : Handle) :
    Except NetErr Container :=
  let id := uidParse h.execID
  if id = "" then .error (.invalidArg ("invalid container id " ++ h.execID))
  else
    match alookup id c.containers with
    | some con => .ok con
    | none => .error (.resourceNotFound ("container " ++ id ++ " not found"))

/-- Modelled from the spec: one docker-style port spec normalized by
`nat.ParsePortSpecs` (external library): the container port of a
`host:container/proto` form, with `tcp` as the default protocol. -/
def normalizePortSpec (s : String) : Except String String :=
  if s = "" then .error "invalid port spec"
  else
    match (splitOnChar ':' s).getLast? with
    | none => .error "invalid port spec"
    | some p => if containsChar p '/' then .ok p else .ok (p ++ "/tcp")

def parsePortSpecs (specs : List String) : Except String (List String) :=
  specs.mapM normalizePortSpec

/-- Parse each normalized spec with `ParsePort` and `addPort` it. -/
def addPorts (e : Endpoint) : List String → Except NetErr Endpoint
| [] => .ok e
| p :: rest =>
  match parsePort p with
  | .error m => .error (.invalidArg m)
  | .ok port => addPorts (e.addPort port) rest

/-- `s.RemoveContainer(con)` as run by `bindContainer`'s deferred
rollback: the error result is dropped. -/
def removeIgnore (scopes : List (String × Scope)) (nm : String)
    (con : Container) : List (String × Scope) :=
  match alookup nm scopes with
  | none => scopes
  | some s =>
    match s.removeContainer con with
    | .ok s' => aput nm s' scopes
    | .error _ => scopes

/-- Declared-alias processing of `bindContainer` (context.go lines
746-776): parse `"who:what"`, add the per-endpoint alias, and record the
context alias write when the aliased container is already bound. -/
def processAliases (con : Container) (containers : List (String × Container))
    (e : Endpoint) : List String →
    Except NetErr (Endpoint × List (String × Container))
| [] => .ok (e, [])
| a :: rest =>
  match splitOnChar ':' a with
  | [who0, what] =>
    let who := if who0 = "" then con.name else who0
    let r := e.addAlias who what
    let entry := r.1
    let dup := r.2.1
    let e' := r.2.2
    let w : List (String × Container) :=
      if entry ≠ badAlias && !dup then
        match (if who = con.name then some con else alookup who containers) with
        | some wc => [(entry.scopedName e.scopeName, wc)]
        | none => []
      else []
    match processAliases con containers e' rest with
    | .error err => .error err
    | .ok (e'', ws) => .ok (e'', w ++ ws)
  | _ => .error (.invalidArg ("Parsing network alias " ++ a ++ " failed"))

/-- Outcome of `bindContainer`'s per-network loop: on failure the scopes
carry the deferred `RemoveContainer` rollbacks and the networks carry the
partial endpoint writes made before the failure. -/
inductive BindRes where
| bindOk (scopes : List (String × Scope)) (ns : List (String × NetworkEndpoint))
    (dm : Bool) (eps : List Endpoint) (writes : List (String × Container))
| bindFail (err : NetErr) (scopes : List (String × Scope))
    (ns : List (String × NetworkEndpoint))
deriving DecidableEq, Repr

/-- The endpoint `bindContainer` constructs for one declared network:
static IP, else the assigned IP recovered after a restart, else
unspecified. -/
def mkBindEndpoint (con : Container) (s : Scope) (ne : NetworkEndpoint) : Endpoint :=
  let eip : Option Nat :=
    if ne.static then some (ne.ipNet.getD { base := 0, prefixLen := 0 }).base
    else if !(isUnspecifiedIP ne.assignedIP) then some ne.assignedIP
    else none
  { containerID := con.id, containerName := con.name, scopeName := s.name,
    ip := eip.getD 0, static := ne.static, ports := [], aliases := [] }

/-- The per-network write-backs on the handle endpoint (context.go lines
721-741): endpoint IP when defined, gateway, DNS copy, then the
default-network marking — mark the first external scope, and clear the
mark when the scope is internal.  Returns the updated endpoint and the
updated default-marked flag. -/
def updateNE (ne : NetworkEndpoint) (s1 : Scope) (epIP : Nat) (dm : Bool) :
    NetworkEndpoint × Bool :=
  let ne1 :=
    if !(isUnspecifiedIP epIP) then
      { ne with ipNet := some { base := epIP, prefixLen := prefixOf s1.subnet } }
    else ne
  let ne2 := { ne1 with
    gatewayNet := { base := s1.gateway, prefixLen := prefixOf s1.subnet },
    nameservers := s1.dns }
  let extHere := !dm && (s1.scopeType == externalScopeType)
  let ne3 := if extHere then { ne2 with isDefault := true } else ne2
  let dm1 := dm || (s1.scopeType == externalScopeType)
  let ne4 := if s1.internal then { ne3 with isDefault := false } else ne3
  (ne4, dm1)

/-- Write the mutated endpoint back into the scope (Go mutates it
through the pointer already stored in `scope.endpoints`). -/
def scopeWithUpdatedEndpoint (s1 : Scope) (cid : String) (e3 : Endpoint) : Scope :=
  { s1 with endpoints :=
      s1.endpoints.map (fun e' => if e'.containerID == cid then e3 else e') }

/-- The dns-lookup alias writes of one iteration (context.go lines
743-744). -/
def dnsAliasWrites (s1 : Scope) (con : Container) : List (String × Container) :=
  [(s1.name ++ ":" ++ con.name, con),
   (s1.name ++ ":" ++ uidTruncate con.id, con)]

/-- The fix-up writes: aliases to this container declared earlier by
other containers on the same scope (context.go lines 778-789). -/
def fixupWrites (s2 : Scope) (con : Container) : List (String × Container) :=
  (s2.endpoints.filter (fun e' => !(e'.containerID == con.id))).flatMap
    (fun e' => (e'.getAliases con.name).map
       (fun a => (a.scopedName s2.name, con)))

/-- The per-network loop of `bindContainer` (context.go lines 672-792),
threading the scope map, the default-mark flag, the produced endpoints
and the pending context-alias writes. -/
def bindLoop (containers : List (String × Container)) (con : Container)
    (scopes : List (String × Scope)) (dm : Bool) :
    List (String × NetworkEndpoint) → BindRes
| [] => .bindOk scopes [] dm [] []
| (nm, ne) :: rest =>
  match alookup nm scopes with
  | none =>
    -- resolution failure happens before this scope's rollback is
    -- registered; earlier iterations are unwound by their own defers
    .bindFail (.resourceNotFound ("network " ++ nm ++ " not found")) scopes ((nm, ne) :: rest)
  | some s =>
    match s.addContainer con (mkBindEndpoint con s ne) with
    | .error err => .bindFail err (removeIgnore scopes nm con) ((nm, ne) :: rest)
    | .ok (s1, e1) =>
      match parsePortSpecs ne.ports with
      | .error m => .bindFail (.invalidArg m) (removeIgnore (aput nm s1 scopes) nm con) ((nm, ne) :: rest)
      | .ok portStrs =>
        match addPorts e1 portStrs with
        | .error err => .bindFail err (removeIgnore (aput nm s1 scopes) nm con) ((nm, ne) :: rest)
        | .ok e2 =>
          match processAliases con containers e2 ne.networkAliases with
          | .error err =>
            .bindFail err (removeIgnore (aput nm s1 scopes) nm con)
              ((nm, (updateNE ne s1 e2.ip dm).1) :: rest)
          | .ok (e3, writes1) =>
            match bindLoop containers con
                (aput nm (scopeWithUpdatedEndpoint s1 con.id e3) (aput nm s1 scopes))
                (updateNE ne s1 e2.ip dm).2 rest with
            | .bindOk scopes3 ns3 dm3 eps3 ws3 =>
              .bindOk scopes3 ((nm, (updateNE ne s1 e2.ip dm).1) :: ns3) dm3 (e3 :: eps3)
                (dnsAliasWrites s1 con ++ writes1 ++
                  fixupWrites (scopeWithUpdatedEndpoint s1 con.id e3) con ++ ws3)
            | .bindFail err scopes3 ns3 =>
              .bindFail err (removeIgnore scopes3 nm con)
                ((nm, (updateNE ne s1 e2.ip dm).1) :: ns3)

/-- The fallback default-network election (context.go lines 796-808):
mark the first endpoint whose scope is not internal. -/
def markFallback (scopes : List (String × Scope)) :
    List (String × NetworkEndpoint) → List (String × NetworkEndpoint)
| [] => []
| (nm, ne) :: rest =>
  match alookup nm scopes with
  | some s =>
    if s.internal then (nm, ne) :: markFallback scopes rest
    else (nm, { ne with isDefault := true }) :: rest
  | none => (nm, { ne with isDefault := true }) :: rest

/-- Collapse the pending alias writes with Go-map overwrite semantics. -/
def collapseWrites (ws : List (String × Container)) : List (String × Container) :=
  ws.foldl (fun m kv => aput kv.1 kv.2 m) []

/-- Merge freshly registered aliases into the context alias index,
de-duplicating per key (context.go lines 817-830). -/
def commitAliases (ctxAliases : List (String × List Container)) :
    List (String × Container) → List (String × List Container)
| [] => ctxAliases
| (k, v) :: rest =>
  let cons := (alookup k ctxAliases).getD []
  let ctx' := if cons.contains v then ctxAliases else aput k (cons ++ [v]) ctxAliases
  commitAliases ctx' rest

/-- `Context.bindContainer` (context.go): idempotent for a bound
container; otherwise bind every declared network, elect a default
network, and commit the container under its three keys together with the
registered aliases. -/
def bindContainerGo (c : ContextState) (h : Handle) :
    Except NetErr (List Endpoint) × ContextState × Handle :=
  match ctxContainerOfHandle c h with
  | .ok con => (.ok (containerEndpoints c.scopes con.id), c, h)
  | .error (.resourceNotFound _) =>
    let con : Container := { id := uidParse h.execID, name := h.execName }
    match bindLoop c.containers con c.scopes false h.networks with
    | .bindFail err scopes' ns' =>
      (.error err, { c with scopes := scopes' }, { h with networks := ns' })
    | .bindOk scopes1 ns1 dm1 eps ws =>
      let ns2 := if !dm1 then markFallback scopes1 ns1 else ns1
      let containers' :=
        aput con.name con (aput (uidTruncate con.id) con (aput con.id con c.containers))
      let aliases' := commitAliases c.aliases (collapseWrites ws)
      (.ok eps,
       { c with scopes := scopes1, containers := containers', aliases := aliases' },
       { h with networks := ns2 })
  | .error e => (.error e, c, h)

/-- `BindContainer` (public wrapper; the lock is the whole-state
threading). -/
def ctxBindContainer (c : ContextState) (h : Handle) :
    Except NetErr (List Endpoint) × ContextState × Handle :=
  bindContainerGo c h

/-- Outcome of `UnbindContainer`'s per-network loop; failures keep the
removals already performed. -/
inductive UnbindRes where
| uOk (scopes : List (String × Scope)) (ns : List (String × NetworkEndpoint))
    (aliasNames : List String) (eps : List Endpoint)
| uFail (err : NetErr) (scopes : List (String × Scope))
    (ns : List (String × NetworkEndpoint))
deriving DecidableEq, Repr

/-- The per-network loop of `UnbindContainer` (context.go lines 866-905):
save the endpoint, remove it from the scope, zero the assigned IP and
collect every alias to drop. -/
def unbindLoop (con : Container) (scopes : List (String × Scope)) :
    List (String × NetworkEndpoint) → UnbindRes
| [] => .uOk scopes [] [] []
| (nm, ne) :: rest =>
  match alookup nm scopes with
  | none => .uFail (.resourceNotFound "") scopes ((nm, ne) :: rest)
  | some s =>
    match containerEndpointOn s con.id with
    | none =>
      -- Go dereferences con.Endpoint(s) unconditionally
      .uFail (.panicErr "nil endpoint dereference") scopes ((nm, ne) :: rest)
    | some e =>
      match s.removeContainer con with
      | .error err => .uFail err scopes ((nm, ne) :: rest)
      | .ok s' =>
        let scopes1 := aput nm s' scopes
        let ne' := { ne with assignedIP := 0 }
        let names :=
          [s.name ++ ":" ++ con.name, s.name ++ ":" ++ uidTruncate con.id]
          ++ e.aliases.map (fun a => a.scopedName s.name)
          ++ (s'.endpoints.filter (fun e2 => !(e2.containerID == con.id))).flatMap
               (fun e2 => (e2.getAliases con.name).map (fun a => a.scopedName s'.name))
        match unbindLoop con scopes1 rest with
        | .uOk scopes2 ns2 names2 eps2 =>
          .uOk scopes2 ((nm, ne') :: ns2) (names ++ names2) (e :: eps2)
        | .uFail err scopes2 ns2 => .uFail err scopes2 ((nm, ne') :: ns2)

/-- Remove the first occurrence of a container from a list, reporting
whether one was removed. -/
def removeFirstCon : List Container → Container → Option (List Container)
| [], _ => none
| x :: rest, con =>
  if x = con then some rest
  else (removeFirstCon rest con).map (fun rest' => x :: rest')

/-- Drop one occurrence of the container from one alias list, deleting
the entry when it becomes empty (context.go lines 908-922). -/
def removeAliasOnce (ctxAliases : List (String × List Container))
    (a : String) (con : Container) : List (String × List Container) :=
  match alookup a ctxAliases with
  | none => ctxAliases
  | some cons =>
    match removeFirstCon cons con with
    | none => ctxAliases
    | some cons' =>
      if cons' = [] then aerase a ctxAliases else aput a cons' ctxAliases

/-- `UnbindContainer` (context.go): no-op `(nil, nil)` when the container
is not bound; otherwise remove every endpoint, purge the aliases and
delete the three container keys. -/
def ctxUnbindContainer (c : ContextState) (h : Handle) :
    Except NetErr (Option (List Endpoint)) × ContextState × Handle :=
  match ctxContainerOfHandle c h with
  | .error (.resourceNotFound _) => (.ok none, c, h)
  | .error e => (.error e, c, h)
  | .ok con =>
    match unbindLoop con c.scopes h.networks with
    | .uFail err scopes' ns' =>
      (.error err, { c with scopes := scopes' }, { h with networks := ns' })
    | .uOk scopes1 ns1 names eps =>
      let aliases' := names.foldl (fun al a => removeAliasOnce al a con) c.aliases
      let containers' :=
        aerase con.name (aerase (uidTruncate con.id) (aerase con.id c.containers))
      (.ok (some eps),
       { c with scopes := scopes1, aliases := aliases', containers := containers' },
       { h with networks := ns1 })

/-! ## AddContainer / RemoveContainer (staging on the handle) -/

structure AddContainerOptions where
  scope : String
  ip : Option Nat
  aliases : List String
  ports : List String
deriving DecidableEq, Repr

def atoiOrZero (s : String) : Nat := (toNatQ s).getD 0

def pciSlotNumberBegin : Nat := 0xc0
def pciSlotNumberEnd : Nat := 0x400
def pciSlotNumberInc : Nat := 0x20

/-- Modelled from the spec: `spec.AssignSlotNumber` picks the first
unused PCI slot in `[0xC0, 0x400)` stepping by `0x20`. -/
def assignSlotNumber (used : List Nat) : Nat → Nat
| 0 => 0
| fuel + 1 =>
  let cand := pciSlotNumberEnd - (fuel + 1) * pciSlotNumberInc
  if cand < pciSlotNumberBegin then assignSlotNumber used fuel
  else if used.contains cand then assignSlotNumber used fuel
  else cand

/-- Slots already used by the handle's declared endpoints. -/
def usedSlots (h : Handle) : List Nat :=
  (h.networks.filter (fun kv => !(kv.2.id == ""))).map (fun kv => atoiOrZero kv.2.id)

/-- `addEthernetCard` (context.go lines 934-993): reuse a pending
add-device spec backed by the scope's port group, otherwise synthesize a
vmxnet3 card; assign a slot when none is set; append an add change only
when no pending spec was found.  The govmomi device list is modelled from
the spec as `DeviceChange` records. -/
def addEthernetCardGo (h : Handle) (s : Scope) : Nat × Handle :=
  match h.deviceChanges.find? (fun dc => dc.op == "add" && dc.portGroup == s.network) with
  | some dc =>
    if dc.slot == 0 then
      let slot := assignSlotNumber (usedSlots h) (pciSlotNumberEnd / pciSlotNumberInc)
      let dcs := h.deviceChanges.map (fun dc' => if dc' == dc then { dc' with slot := slot } else dc')
      (slot, { h with deviceChanges := dcs })
    else (dc.slot, h)
  | none =>
    let slot := assignSlotNumber (usedSlots h) (pciSlotNumberEnd / pciSlotNumberInc)
    (slot, { h with deviceChanges :=
       h.deviceChanges ++ [{ op := "add", portGroup := s.network, slot := slot }] })

/-- The duplicated-external check of `AddContainer` (context.go lines
1029-1036); Go dereferences the resolved scope without a nil check. -/
def findExternalConflict (c : ContextState) :
    List (String × NetworkEndpoint) → Option NetErr
| [] => none
| (nm, _) :: rest =>
  match resolveScopeGo c nm with
  | .error _ => some (.panicErr "nil scope dereference")
  | .ok none => some (.panicErr "nil scope dereference")
  | .ok (some sc) =>
    if sc.scopeType == externalScopeType then
      some (.invalidArg "container can only be added to at most one mapped network")
    else findExternalConflict c rest

/-- The bridge NIC-reuse scan of `AddContainer` (context.go lines
1064-1082). -/
def scanBridgeSlot (c : ContextState) :
    List (String × NetworkEndpoint) → Except NetErr Nat
| [] => .ok 0
| (nm, ne) :: rest =>
  match resolveScopeGo c nm with
  | .error e => .error e
  | .ok none => .error (.panicErr "nil scope dereference")
  | .ok (some sc) =>
    if !(sc.scopeType == bridgeScopeType) then scanBridgeSlot c rest
    else if !(ne.id == "") && !(atoiOrZero ne.id == 0) then .ok (atoiOrZero ne.id)
    else scanBridgeSlot c rest

/-- `Context.AddContainer` (context.go lines 1006-1128): stage a network
endpoint on the handle.  No context state is mutated. -/
def ctxAddContainer (c : ContextState) (h : Handle)
    (opts : AddContainerOptions) : Except NetErr Unit × Handle :=
  match resolveScopeGo c opts.scope with
  | .error e => (.error e, h)
  | .ok none => (.error (.panicErr "nil scope dereference"), h)
  | .ok (some s) =>
    if (alookup s.name h.networks).isSome then (.ok (), h)
    else
      let conflict : Option NetErr :=
        if s.scopeType == externalScopeType then findExternalConflict c h.networks
        else none
      match conflict with
      | some err => (.error err, h)
      | none =>
        match (if s.scopeType == externalScopeType then
                 opts.ports.find? (fun p => containsChar p ':')
               else none) with
        | some p =>
          (.error (.invalidArg ("external scope includes a port mapping (" ++ p ++ ")")), h)
        | none =>
          if s.scopeType == externalScopeType && opts.ports.length > 0 &&
              s.trust == TrustLevel.closed then
            (.error (.invalidArg "Ports cannot be published via the \x22closed\x22 container network firewall."), h)
          else
            let slotE : Except NetErr (Nat × Handle) :=
              match (if s.scopeType == bridgeScopeType then
                       scanBridgeSlot c h.networks
                     else .ok 0) with
              | .error e => .error e
              | .ok slot0 =>
                if slot0 == 0 then .ok (addEthernetCardGo h s)
                else .ok (slot0, h)
            match slotE with
            | .error e => (.error e, h)
            | .ok (pciSlot, h1) =>
              let ne : NetworkEndpoint :=
                { id := toString pciSlot,
                  name := s.name,
                  networkAliases := opts.aliases,
                  netType := s.scopeType,
                  trust := s.trust,
                  poolsDecl := s.spaces.map (fun sp => (sp.firstIP, sp.lastIP)),
                  isDefault := false,
                  gatewayNet := { base := 0, prefixLen := 0 },
                  nameservers := [],
                  static := opts.ip.isSome && !(isUnspecifiedIP (opts.ip.getD 0)),
                  ipNet :=
                    if opts.ip.isSome && !(isUnspecifiedIP (opts.ip.getD 0)) then
                      some { base := opts.ip.getD 0, prefixLen := prefixOf s.subnet }
                    else none,
                  assignedIP := 0,
                  ports := opts.ports }
              (.ok (), { h1 with networks := aput s.name ne h1.networks })

/-- `Context.RemoveContainer` (context.go lines 1130-1190): unstage a
declared endpoint; fails when the container is bound; emits a
remove-device change only when no other endpoint shares the NIC. -/
def ctxRemoveContainer (c : ContextState) (h : Handle) (scope : String) :
    Except NetErr Unit × Handle :=
  match ctxContainerOfHandle c h with
  | .ok _ => (.error (.invalidArg "container is bound"), h)
  | .error _ =>
    match resolveScopeGo c scope with
    | .error e => (.error e, h)
    | .ok none => (.error (.panicErr "nil scope dereference"), h)
    | .ok (some s) =>
      match alookup s.name h.networks with
      | none =>
        (.error (.invalidArg ("container " ++ h.execID ++ " not part of network " ++ s.name)), h)
      | some ne =>
        let removeNIC :=
          !(h.networks.any (fun kv => !(kv.1 == s.name) && kv.2.id == ne.id))
        let h1 :=
          if removeNIC then
            { h with deviceChanges :=
                h.deviceChanges ++ [{ op := "remove", portGroup := s.network, slot := 0 }] }
          else h
        (.ok (), { h1 with networks := aerase s.name h1.networks })

/-! ## Lookups and scope deletion -/

/-- `Context.Container(key)` (context.go): direct index lookup under the
lock; the state is returned to expose that the lookup does not mutate
it. -/
def ctxContainer (c : ContextState) (key : String) :
    Option Container × ContextState :=
  (alookup key c.containers, c)

/-- `Context.ContainersByAlias(alias)` (context.go). -/
def ctxContainersByAlias (c : ContextState) (a : String) :
    Option (List Container) × ContextState :=
  (alookup a c.aliases, c)

/-- `Context.DeleteScope` (context.go lines 1235-1266). -/
def ctxDeleteScope (c : ContextState) (name : String) :
    Except NetErr Unit × ContextState :=
  match resolveScopeGo c name with
  | .error e => (.error e, c)
  | .ok none => (.error (.resourceNotFound "scope not found"), c)
  | .ok (some s) =>
    if s.builtin then (.error (.invalidArg "cannot remove builtin scope"), c)
    else if !(s.endpoints.length == 0) then
      (.error (.invalidArg (s.name ++ " has active endpoints")), c)
    else
      match c.kv with
      | none => (.ok (), deleteScopeGo c s)
      | some kv =>
        if kv.delFails then (.error .kvDeleteFailed, c)
        else
          -- Delete tolerates ErrKeyNotFound
          let kv' := { kv with store := aerase (scopeKey s.name) kv.store }
          (.ok (), deleteScopeGo { c with kv := some kv' } s)

/-! ## Context construction (`NewContext`, context.go lines 74-196) -/

def defaultBridgeRangeNet : IPNet := { base := ipv4 172 16 0 0, prefixLen := 12 }

/-- Mask an address to a prefix (Go `IP.Mask`). -/
def maskIP (x p : Nat) : Nat := x / 2 ^ (32 - p) * 2 ^ (32 - p)

/-- Set the builtin flag on a freshly created scope (Go writes through
the scope pointer). -/
def markBuiltin (nm : String) (scopes : List (String × Scope)) :
    List (String × Scope) :=
  match alookup nm scopes with
  | some s => aput nm { s with builtin := true } scopes
  | none => scopes

/-- Create one builtin scope per declared container network other than
the bridge network (context.go lines 129-157). -/
def addBuiltinNetworks (c : ContextState) :
    List (String × ContainerNetworkConfig) → Except NetErr ContextState
| [] => .ok c
| (nn, n) :: rest =>
  if nn = c.config.bridgeNetwork then addBuiltinNetworks c rest
  else
    let subnet : IPNet :=
      { base := maskIP n.gateway n.gatewayPrefix, prefixLen := n.gatewayPrefix }
    let sd : ScopeData :=
      { scopeType := n.netType, name := nn, subnet := some subnet,
        gateway := n.gateway, dns := n.nameservers, trustLevel := n.trustLevel,
        pools := n.pools.map some, annotations := [], internal := false }
    match newScopeGo c sd with
    | (.error e, _) => .error e
    | (.ok s, c') =>
      addBuiltinNetworks { c' with scopes := markBuiltin s.name c'.scopes } rest

/-- Modelled from the spec: `Scope.UnmarshalJSON` rebuilds a scope from
the persisted record; the port-group reference is re-attached by the
caller. -/
def unmarshalScope (r : ScopeRecord) : Scope :=
  { id := r.id, name := r.name, scopeType := r.scopeType, subnet := r.subnet,
    gateway := r.gateway, dns := r.dns, trust := r.trust, internal := r.internal,
    builtin := false, network := "",
    spaces := r.pools.map (fun fl => newAddressSpaceFromRange fl.1 fl.2),
    endpoints := [], scopeAliases := [], annotations := r.annotations }

/-- Re-admit saved scopes from the KV store, skipping records whose port
group is missing and records `addScope` rejects (context.go lines
159-193). -/
def loadSavedScopes (c : ContextState) :
    List (String × ScopeRecord) → ContextState
| [] => c
| (_, r) :: rest =>
  let s0 := unmarshalScope r
  let nn :=
    if s0.scopeType == bridgeScopeType then "bridge"
    else if s0.scopeType == externalScopeType then s0.name
    else ""
  if !(c.config.portGroups.contains nn) then loadSavedScopes c rest
  else
    let s1 := { s0 with network := nn }
    match addScope c s1 with
    | (.ok _, c') => loadSavedScopes c' rest
    | (.error _, c') => loadSavedScopes c' rest

/-- `NewContext` (context.go): validate the bridge masks, build the
default bridge pool, create the builtin scopes, then re-admit scopes
saved in the KV store. -/
def newContextGo (config : Configuration) (kv : Option KVState) :
    Except NetErr ContextState :=
  let bridgeRange :=
    match config.bridgeIPRange with
    | some r => if r.base == 0 then defaultBridgeRangeNet else r
    | none => defaultBridgeRangeNet
  let bridgeWidth := config.bridgeNetworkWidth.getD 16
  if bridgeWidth < bridgeRange.prefixLen then
    .error (.invalidArg "bridge mask is not compatible with bridge pool mask")
  else
    let c0 : ContextState :=
      { config := config, defaultBridgeMask := bridgeWidth,
        defaultBridgePool := newAddressSpaceFromNetwork bridgeRange,
        scopes := [], containers := [], aliases := [],
        defaultScopeName := "", bridgeLink := [], kv := kv }
    match alookup config.bridgeNetwork config.containerNetworks with
    | none =>
      .error (.invalidArg ("default bridge network " ++ config.bridgeNetwork ++ " not present in config"))
    | some n =>
      let sd : ScopeData :=
        { scopeType := n.netType, name := n.name, subnet := none, gateway := 0,
          dns := [], trustLevel := .unspecified, pools := [], annotations := [],
          internal := false }
      match newScopeGo c0 sd with
      | (.error e, _) => .error e
      | (.ok s, c1) =>
        let scopes2 := markBuiltin s.name c1.scopes
        let c2 := { c1 with scopes := scopes2, defaultScopeName := s.name }
        match addBuiltinNetworks c2 config.containerNetworks with
        | .error e => .error e
        | .ok c3 =>
          match kv with
          | none => .ok c3
          | some kvs =>
            .ok (loadSavedScopes c3 (kvs.store.filter
              (fun kv' => isPrefixOfStr "context.scopes." kv'.1 &&
                decide ("context.scopes.".length < kv'.1.length))))

/-! ## Concrete fixtures

Context states and handles used by the concrete theorems below, built
through the constructors themselves so every state is reachable. -/

/-- A placeholder state returned only on construction failure of a
fixture (never reached; the theorems check success explicitly). -/
def emptyCtx (config : Configuration) : ContextState :=
  { config := config, defaultBridgePool := newAddressSpaceFromRange 0 0,
    defaultBridgeMask := 0, scopes := [], containers := [], aliases := [],
    defaultScopeName := "", bridgeLink := [], kv := none }

def ctxOr (config : Configuration) (r : Except NetErr ContextState) : ContextState :=
  match r with
  | .ok c => c
  | .error _ => emptyCtx config

/-- Bridge pool `172.16.0.0/12`, width `/16`, one declared bridge
network (the spec's concrete-scenario configuration). -/
def baseConfig : Configuration :=
  { bridgeIPRange := some { base := ipv4 172 16 0 0, prefixLen := 12 },
    bridgeNetworkWidth := some 16,
    bridgeNetwork := "bridge",
    containerNetworks :=
      [("bridge",
        { name := "bridge", netType := "bridge", gateway := 0, gatewayPrefix := 0,
          nameservers := [], trustLevel := .unspecified, pools := [] })],
    portGroups := ["bridge"] }

/-- Same as `baseConfig` plus a closed external container network and a
port group for a runtime external scope. -/
def extConfig : Configuration :=
  { bridgeIPRange := some { base := ipv4 172 16 0 0, prefixLen := 12 },
    bridgeNetworkWidth := some 16,
    bridgeNetwork := "bridge",
    containerNetworks :=
      [("bridge",
        { name := "bridge", netType := "bridge", gateway := 0, gatewayPrefix := 0,
          nameservers := [], trustLevel := .unspecified, pools := [] }),
       ("extc",
        { name := "extc", netType := "external", gateway := ipv4 10 10 10 1,
          gatewayPrefix := 24, nameservers := [], trustLevel := .closed, pools := [] })],
    portGroups := ["bridge", "ext1", "extc"] }

def baseCtx : ContextState := ctxOr baseConfig (newContextGo baseConfig none)

def baseCtxKV : ContextState :=
  ctxOr baseConfig
    (newContextGo baseConfig (some { store := [], putFails := true, delFails := false }))

def extCtx0 : ContextState := ctxOr extConfig (newContextGo extConfig none)

def sdNet2 : ScopeData :=
  { scopeType := "bridge", name := "net2",
    subnet := some { base := ipv4 172 21 0 0, prefixLen := 16 }, gateway := 0,
    dns := [], trustLevel := .unspecified, pools := [], annotations := [],
    internal := false }

def sdNet3 : ScopeData :=
  { scopeType := "bridge", name := "net3",
    subnet := some { base := ipv4 172 20 0 0, prefixLen := 14 }, gateway := 0,
    dns := [], trustLevel := .unspecified, pools := [], annotations := [],
    internal := false }

def sdS1 : ScopeData :=
  { scopeType := "bridge", name := "s1",
    subnet := some { base := ipv4 172 20 0 0, prefixLen := 16 }, gateway := 0,
    dns := [], trustLevel := .unspecified, pools := [], annotations := [],
    internal := false }

/-- A dynamic (subnet-less) external scope marked internal. -/
def sdExt1 : ScopeData :=
  { scopeType := "external", name := "ext1", subnet := none, gateway := 0,
    dns := [], trustLevel := .published, pools := [], annotations := [],
    internal := true }

def sdNet1 : ScopeData :=
  { scopeType := "bridge", name := "net1", subnet := none, gateway := 0,
    dns := [], trustLevel := .unspecified, pools := [], annotations := [],
    internal := false }

/-- `extCtx`: builtin bridge + builtin closed external `extc`, plus the
runtime scopes `ext1` (external, internal, dynamic) and `net1`
(bridge). -/
def extCtx : ContextState :=
  (ctxNewScope (ctxNewScope extCtx0 sdExt1).2 sdNet1).2

def idA : String := "aaaaaaaaaaaaaaa1"
def idB : String := "bbbbbbbbbbbbbbb2"
def idC : String := "ccccccccccccccc3"

def conA : Container := { id := idA, name := "A" }
def conB : Container := { id := idB, name := "B" }
def conC : Container := { id := idC, name := "A" }

def emptyHandle (execID execName : String) : Handle :=
  { execID := execID, execName := execName, networks := [], deviceChanges := [] }

/-- Handle of `c1` staged on `ext1` then `net1` (the C3 scenario). -/
def handleC3 : Handle :=
  (ctxAddContainer extCtx
    (ctxAddContainer extCtx (emptyHandle "aaaabbbbccccdddd" "c1")
      { scope := "ext1", ip := none, aliases := [], ports := [] }).2
    { scope := "net1", ip := none, aliases := [], ports := [] }).2

def handleA : Handle :=
  (ctxAddContainer extCtx (emptyHandle idA "A")
    { scope := "net1", ip := none, aliases := [], ports := [] }).2

def handleB : Handle :=
  (ctxAddContainer extCtx (emptyHandle idB "B")
    { scope := "net1", ip := none, aliases := ["A:app"], ports := [] }).2

def handleC : Handle :=
  (ctxAddContainer extCtx (emptyHandle idC "A")
    { scope := "net1", ip := none, aliases := [], ports := [] }).2

/-- State after binding A on `net1`. -/
def stBoundA : ContextState := (ctxBindContainer extCtx handleA).2.1

/-- State after binding A then B (B declares the alias `"A:app"`). -/
def stBoundAB : ContextState := (ctxBindContainer stBoundA handleB).2.1

/-- Handle of B as mutated by its bind (used for the unbind step). -/
def handleBBound : Handle := (ctxBindContainer stBoundA handleB).2.2

/-- State after binding B then A. -/
def stBoundBA : ContextState :=
  (ctxBindContainer (ctxBindContainer extCtx handleB).2.1 handleA).2.1

/-- Handle of `extc` already staged (for the C6 counterexample). -/
def handleExtc : Handle :=
  (ctxAddContainer extCtx0 (emptyHandle "aaaabbbbccccdddd" "c1")
    { scope := "extc", ip := none, aliases := [], ports := [] }).2

/-- State after binding A and then C (C shares A's name). -/
def stBoundAC : ContextState := (ctxBindContainer stBoundA handleC).2.1

/-- State after unbinding B from the A-then-B state. -/
def stAfterUnbindB : ContextState :=
  (ctxUnbindContainer stBoundAB handleBBound).2.1

/-- Resolve a scope out of a fixture state (with an inert placeholder on
failure; the theorems check resolution explicitly). -/
def scopeOf (c : ContextState) (nm : String) : Scope :=
  match resolveScopeGo c nm with
  | .ok (some s) => s
  | _ => mkScope "" "" "" sdS1

/-- The scope produced by the C1 failing creation, and the state right
after the in-memory creation (before the KV write). -/
def s1Scope : Scope :=
  match (newScopeGo baseCtxKV sdS1).1 with
  | .ok s => s
  | .error _ => mkScope "" "" "" sdS1

def s1Ctx : ContextState := (newScopeGo baseCtxKV sdS1).2

/-! # Claim theorems -/

/-- C10: `Container(key)` returns nil (not an error) when the key
matches none of the three index forms, and `ContainersByAlias(alias)`
returns nil for an unregistered alias; neither lookup modifies any
context state. -/
theorem c10_lookup_miss (c : ContextState) (key a : String)
    (hk : alookup key c.containers = none)
    (ha : alookup a c.aliases = none) :
    ctxContainer c key = (none, c) ∧ ctxContainersByAlias c a = (none, c) := by
  simp [ctxContainer, ctxContainersByAlias, hk, ha]

theorem c10_lookup_miss_witness :
    ctxContainer extCtx "nope" = (none, extCtx) ∧
    ctxContainersByAlias extCtx "nope" = (none, extCtx) :=
  c10_lookup_miss extCtx "nope" "nope" (by decide) (by decide)

/-- C5: `BindContainer` on a container already present returns the
existing endpoint set and leaves the context state and handle unchanged;
`UnbindContainer` on a container that is not bound returns `(nil, nil)`
and changes nothing. -/
theorem c5_idempotency (c : ContextState) (h : Handle) (con : Container)
    (hid : ¬ uidParse h.execID = "") :
    (alookup (uidParse h.execID) c.containers = some con →
      ctxBindContainer c h = (.ok (containerEndpoints c.scopes con.id), c, h)) ∧
    (alookup (uidParse h.execID) c.containers = none →
      ctxUnbindContainer c h = (.ok none, c, h)) := by
  constructor
  · intro hfound
    simp [ctxBindContainer, bindContainerGo, ctxContainerOfHandle, hid, hfound]
  · intro hmiss
    simp [ctxUnbindContainer, ctxContainerOfHandle, hid, hmiss]

theorem c5_idempotency_witness :
    ctxBindContainer stBoundA handleA =
      (.ok (containerEndpoints stBoundA.scopes conA.id), stBoundA, handleA) ∧
    ctxUnbindContainer extCtx handleA = (.ok none, extCtx, handleA) :=
  ⟨(c5_idempotency stBoundA handleA conA (by decide)).1 (by decide),
   (c5_idempotency extCtx handleA conA (by decide)).2 (by decide)⟩

/-- C2: the no-overlap invariant fails on the code.  Starting from a
freshly constructed context (bridge pool `172.16.0.0/12`, builtin bridge
scope on `172.16.0.0/16`), creating `net2` on `172.21.0.0/16` and then
`net3` on `172.20.0.0/14` both succeed, although `net3` strictly
contains `net2`: `checkNetOverlap` only tests whether the new subnet's
endpoints lie inside an existing subnet, so a subnet that strictly
contains an existing one is admitted (and the same one-directional test
admits an external subnet strictly containing `defaultBridgePool`).
Address `172.21.0.5` lies in both scopes' subnets. -/
theorem c2_subnet_overlap_bug :
    (newContextGo baseConfig none).toOption.isSome = true ∧
    (ctxNewScope baseCtx sdNet2).1.toOption.isSome = true ∧
    (ctxNewScope (ctxNewScope baseCtx sdNet2).2 sdNet3).1.toOption.isSome = true ∧
    ((alookup "net2" (ctxNewScope (ctxNewScope baseCtx sdNet2).2 sdNet3).2.scopes).map
      (fun s => subnetContainsO s.subnet (ipv4 172 21 0 5))) = some true ∧
    ((alookup "net3" (ctxNewScope (ctxNewScope baseCtx sdNet2).2 sdNet3).2.scopes).map
      (fun s => subnetContainsO s.subnet (ipv4 172 21 0 5))) = some true := by
  decide

/-- C1 counterexample: with a KV store whose `Put` fails, `NewScope` on a
bridge scope with subnet `172.20.0.0/16` returns the error and removes
the scope and the bridge-link address, but the sub-pool carved from
`defaultBridgePool` for the subnet is NOT released: the pool still
carries the carved range afterwards, refuting the claim's rollback of
the pool. -/
theorem c1_kv_rollback_counterexample :
    (newContextGo baseConfig (some { store := [], putFails := true, delFails := false })).toOption.isSome = true ∧
    (ctxNewScope baseCtxKV sdS1).1 = .error .kvPutFailed ∧
    alookup "s1" (ctxNewScope baseCtxKV sdS1).2.scopes = none ∧
    (ctxNewScope baseCtxKV sdS1).2.bridgeLink = baseCtxKV.bridgeLink ∧
    (ctxNewScope baseCtxKV sdS1).2.defaultBridgePool.reservedRanges =
      baseCtxKV.defaultBridgePool.reservedRanges ++
        [(ipv4 172 20 0 0, ipv4 172 20 255 255)] ∧
    ¬ (ctxNewScope baseCtxKV sdS1).2.defaultBridgePool =
        baseCtxKV.defaultBridgePool := by
  decide

/-- C4 counterexample: bind A on `net1`, then bind B declaring the alias
`"A:app"`.  Both binds succeed, but `ContainersByAlias("net1:A.app")` is
`[A]` — it does not include B as the claim states — and after unbinding
B the entry still maps to A instead of being removed (the removal loop
looks for B in the list, which holds only A). -/
theorem c4_alias_counterexample :
    (ctxBindContainer extCtx handleA).1.toOption.isSome = true ∧
    (ctxBindContainer stBoundA handleB).1.toOption.isSome = true ∧
    (ctxContainersByAlias stBoundAB "net1:A.app").1 = some [conA] ∧
    ((ctxContainersByAlias stBoundAB "net1:A.app").1.getD []).contains conB = false ∧
    (ctxUnbindContainer stBoundAB handleBBound).1.toOption.isSome = true ∧
    (ctxContainersByAlias stAfterUnbindB "net1:A.app").1 = some [conA] := by
  decide

/-- C4 amended: in the same scenario, `ContainersByAlias("net1:A.app")`
includes A — the container that was aliased — and not B; binding in the
reverse order yields the same final alias index (a permutation of the
same duplicate-free association list); and after unbinding B the alias
entry is not removed and still maps to A. -/
theorem c4_alias_amended :
    (ctxContainersByAlias stBoundAB "net1:A.app").1 = some [conA] ∧
    ((ctxContainersByAlias stBoundAB "net1:A.app").1.getD []).contains conB = false ∧
    List.Perm stBoundAB.aliases stBoundBA.aliases ∧
    (stBoundAB.aliases.map Prod.fst).Nodup ∧
    (ctxContainersByAlias stAfterUnbindB "net1:A.app").1 = some [conA] := by
  decide

/-- C6 counterexample: on a context whose external scope `extc` has
trust level closed, an `AddContainer` call whose resolved scope is
`extc` and whose ports contain `":"` (and are non-empty on the closed
scope) SUCCEEDS when the handle already declares `extc`: the idempotent
early return short-circuits both port checks, refuting the claim's
"for every AddContainer call". -/
theorem c6_external_ports_counterexample :
    ((resolveScopeGo extCtx0 "extc").toOption.getD none).map
      (fun s => (s.scopeType, s.trust)) = some (externalScopeType, TrustLevel.closed) ∧
    (alookup "extc" handleExtc.networks).isSome = true ∧
    containsChar "80:80" ':' = true ∧
    ctxAddContainer extCtx0 handleExtc
      { scope := "extc", ip := none, aliases := [], ports := ["80:80"] } =
      (.ok (), handleExtc) := by
  decide

/-- C9 counterexample: container A (`idA`, name "A") and container C
(`idC`, also named "A") both bind successfully; afterwards A's long-id
key still maps to A while the shared name key maps to C, so the three
container indexes disagree, refuting the success-only-sequence
invariant. -/
theorem c9_container_index_counterexample :
    (ctxBindContainer extCtx handleA).1.toOption.isSome = true ∧
    (ctxBindContainer stBoundA handleC).1.toOption.isSome = true ∧
    alookup conA.id stBoundAC.containers = some conA ∧
    alookup conA.name stBoundAC.containers = some conC ∧
    ¬ conA = conC := by
  decide

/-- C8: `DeleteScope` fails with "cannot remove builtin scope" on a
builtin scope and with "name has active endpoints" on a scope that still
has endpoints, in both cases leaving the whole context state (scopes and
KV store included) unchanged; and whenever it succeeds, the resolved
scope was non-builtin with no endpoints. -/
theorem c8_delete_scope_guards (c : ContextState) (name : String) (s : Scope)
    (hres : resolveScopeGo c name = .ok (some s)) :
    (s.builtin = true →
      ctxDeleteScope c name = (.error (.invalidArg "cannot remove builtin scope"), c)) ∧
    (s.builtin = false → s.endpoints ≠ [] →
      ctxDeleteScope c name = (.error (.invalidArg (s.name ++ " has active endpoints")), c)) ∧
    (∀ u c', ctxDeleteScope c name = (.ok u, c') →
      s.builtin = false ∧ s.endpoints = []) := by
  refine ⟨?_, ?_, ?_⟩
  · intro hb
    simp [ctxDeleteScope, hres, hb]
  · intro hb hne
    simp [ctxDeleteScope, hres, hb, hne]
  · intro u c' heq
    cases hb : s.builtin with
    | true => simp [ctxDeleteScope, hres, hb] at heq
    | false =>
      cases hend : s.endpoints with
      | nil => exact ⟨rfl, rfl⟩
      | cons e es => simp [ctxDeleteScope, hres, hb, hend] at heq

theorem c8_delete_scope_guards_witness :
    ctxDeleteScope extCtx "bridge" =
      (.error (.invalidArg "cannot remove builtin scope"), extCtx) ∧
    ctxDeleteScope stBoundA "net1" =
      (.error (.invalidArg ("net1" ++ " has active endpoints")), stBoundA) :=
  ⟨(c8_delete_scope_guards extCtx "bridge" (scopeOf extCtx "bridge")
      (by decide)).1 (by decide),
   (c8_delete_scope_guards stBoundA "net1" (scopeOf stBoundA "net1")
      (by decide)).2.1 (by decide) (by decide)⟩

/-- C6 amended: for every `AddContainer` call whose resolved scope is
external and whose handle does not already declare that scope, a port
entry containing `":"` makes the call fail, and non-empty ports on a
closed-trust scope make the call fail; in both cases the handle
(networks included) is unchanged.  (With the scope already declared the
call is the idempotent no-op, as the counterexample shows.) -/
theorem c6_external_ports_amended (c : ContextState) (h : Handle)
    (opts : AddContainerOptions) (s : Scope)
    (hres : resolveScopeGo c opts.scope = .ok (some s))
    (hext : s.scopeType = externalScopeType)
    (hnd : alookup s.name h.networks = none) :
    ((∃ p ∈ opts.ports, containsChar p ':' = true) →
      ∃ e, ctxAddContainer c h opts = (.error e, h)) ∧
    (opts.ports ≠ [] → s.trust = .closed →
      ∃ e, ctxAddContainer c h opts = (.error e, h)) := by
  cases hconf : findExternalConflict c h.networks with
  | some err =>
    constructor
    · intro _
      exact ⟨err, by simp [ctxAddContainer, hres, hext, hnd, hconf]⟩
    · intro _ _
      exact ⟨err, by simp [ctxAddContainer, hres, hext, hnd, hconf]⟩
  | none =>
    constructor
    · rintro ⟨p, hp, hc⟩
      have hface : (opts.ports.find? (fun q => containsChar q ':')).isSome := by
        rw [List.find?_isSome]
        exact ⟨p, hp, hc⟩
      obtain ⟨q, hq⟩ := Option.isSome_iff_exists.mp hface
      exact ⟨.invalidArg ("external scope includes a port mapping (" ++ q ++ ")"),
        by simp [ctxAddContainer, hres, hext, hnd, hconf, hq]⟩
    · intro hne hcl
      cases hfind : opts.ports.find? (fun q => containsChar q ':') with
      | some q =>
        exact ⟨.invalidArg ("external scope includes a port mapping (" ++ q ++ ")"),
          by simp [ctxAddContainer, hres, hext, hnd, hconf, hfind]⟩
      | none =>
        have hlen : 0 < opts.ports.length := List.length_pos.mpr hne
        exact ⟨.invalidArg "Ports cannot be published via the \x22closed\x22 container network firewall.",
          by simp [ctxAddContainer, hres, hext, hnd, hconf, hfind, hcl, hlen]⟩

theorem c6_external_ports_amended_witness :
    (∃ e, ctxAddContainer extCtx0 (emptyHandle "aaaabbbbccccdddd" "c1")
        { scope := "extc", ip := none, aliases := [], ports := ["80:80"] } =
        (.error e, emptyHandle "aaaabbbbccccdddd" "c1")) ∧
    (∃ e, ctxAddContainer extCtx0 (emptyHandle "aaaabbbbccccdddd" "c1")
        { scope := "extc", ip := none, aliases := [], ports := ["80"] } =
        (.error e, emptyHandle "aaaabbbbccccdddd" "c1")) :=
  ⟨(c6_external_ports_amended extCtx0 (emptyHandle "aaaabbbbccccdddd" "c1")
      { scope := "extc", ip := none, aliases := [], ports := ["80:80"] }
      (scopeOf extCtx0 "extc") (by decide) (by decide) (by decide)).1
      ⟨"80:80", by decide, by decide⟩,
   (c6_external_ports_amended extCtx0 (emptyHandle "aaaabbbbccccdddd" "c1")
      { scope := "extc", ip := none, aliases := [], ports := ["80"] }
      (scopeOf extCtx0 "extc") (by decide) (by decide) (by decide)).2
      (by decide) (by decide)⟩

/-! Helpers for C7: resolution-based classification of a handle's
declared networks. -/

/-- The name resolves to a unique scope. -/
def resolvable (c : ContextState) (nm : String) : Bool :=
  match resolveScopeGo c nm with
  | .ok (some _) => true
  | _ => false

/-- The name resolves to a unique external scope. -/
def resolvesExternal (c : ContextState) (nm : String) : Bool :=
  match resolveScopeGo c nm with
  | .ok (some sc) => sc.scopeType == externalScopeType
  | _ => false

/-- Number of declared networks that resolve to external scopes. -/
def declaredExternals (c : ContextState) (h : Handle) : Nat :=
  (h.networks.filter (fun kv => resolvesExternal c kv.1)).length

theorem findExternalConflict_of_any (c : ContextState)
    (ns : List (String × NetworkEndpoint))
    (hall : ns.all (fun kv => resolvable c kv.1) = true)
    (hany : ns.any (fun kv => resolvesExternal c kv.1) = true) :
    findExternalConflict c ns =
      some (.invalidArg "container can only be added to at most one mapped network") := by
  induction ns with
  | nil => simp at hany
  | cons hd tl ih =>
    rw [List.all_cons, Bool.and_eq_true] at hall
    obtain ⟨h1, h2⟩ := hall
    cases hres : resolveScopeGo c hd.1 with
    | error e => simp [resolvable, hres] at h1
    | ok o =>
      cases o with
      | none => simp [resolvable, hres] at h1
      | some sc =>
        by_cases hext : sc.scopeType == externalScopeType
        · simp [findExternalConflict, hres, hext]
        · have hany' : tl.any (fun kv => resolvesExternal c kv.1) = true := by
            rw [List.any_cons, Bool.or_eq_true] at hany
            rcases hany with hh | ht
            · rw [resolvesExternal, hres] at hh
              exact absurd hh hext
            · exact ht
          simp [findExternalConflict, hres, hext, ih h2 hany']

theorem findExternalConflict_none (c : ContextState)
    (ns : List (String × NetworkEndpoint))
    (h : findExternalConflict c ns = none) :
    ∀ kv ∈ ns, resolvesExternal c kv.1 = false := by
  induction ns with
  | nil => intro kv hkv; cases hkv
  | cons hd tl ih =>
    intro kv hkv
    cases hres : resolveScopeGo c hd.1 with
    | error e => simp [findExternalConflict, hres] at h
    | ok o =>
      cases o with
      | none => simp [findExternalConflict, hres] at h
      | some sc =>
        by_cases hext : sc.scopeType == externalScopeType
        · simp [findExternalConflict, hres, hext] at h
        · cases hkv with
          | head => simp [resolvesExternal, hres, hext]
          | tail _ hmem =>
            have h' : findExternalConflict c tl = none := by
              simpa [findExternalConflict, hres, hext] using h
            exact ih h' kv hmem

/-- Exact-name resolution through `findScopes`. -/
theorem resolveScope_by_name (c : ContextState) (s : Scope)
    (h1 : ¬ s.name = "") (h2 : ¬ s.name = "default")
    (h3 : alookup s.name c.scopes = some s) :
    resolveScopeGo c s.name = .ok (some s) := by
  simp [resolveScopeGo, findScopesGo, h1, h2, h3]

theorem aput_of_lookup_none {α : Type} (k : String) (v : α)
    (l : List (String × α)) (h : alookup k l = none) :
    aput k v l = l ++ [(k, v)] := by
  induction l with
  | nil => simp [aput]
  | cons hd tl ih =>
    by_cases hk : hd.1 = k
    · simp [alookup, hk] at h
    · rw [alookup] at h
      simp [hk] at h
      simp [aput, hk, ih h]

theorem addEthernetCardGo_networks (h : Handle) (s : Scope) :
    (addEthernetCardGo h s).2.networks = h.networks := by
  unfold addEthernetCardGo
  cases hfind : h.deviceChanges.find? (fun dc => dc.op == "add" && dc.portGroup == s.network) with
  | none => simp
  | some dc =>
    by_cases hslot : dc.slot == 0 <;> simp [hslot]

theorem filter_length_aput_fresh (c : ContextState)
    (nets : List (String × NetworkEndpoint)) (nm : String)
    (ne : NetworkEndpoint) (hfresh : alookup nm nets = none) :
    ((aput nm ne nets).filter (fun kv => resolvesExternal c kv.1)).length =
      (nets.filter (fun kv => resolvesExternal c kv.1)).length +
        (if resolvesExternal c nm then 1 else 0) := by
  rw [aput_of_lookup_none nm ne nets hfresh, List.filter_append, List.length_append]
  by_cases hre : resolvesExternal c nm <;> simp [List.filter_cons, hre]

/-- C7: a container may be on at most one mapped (external) network.
Part 1: when the target scope is external, is not already declared on
the handle, every declared network resolves and one of them resolves to
an external scope, `AddContainer` fails with exactly the
one-mapped-network error and the handle is unchanged.  Part 2: a
successful `AddContainer` never raises the number of declared
external-resolving networks above one. -/
theorem c7_one_external (c : ContextState) (h : Handle)
    (opts : AddContainerOptions) (s : Scope)
    (hres : resolveScopeGo c opts.scope = .ok (some s)) :
    (s.scopeType = externalScopeType →
     h.networks.all (fun kv => resolvable c kv.1) = true →
     h.networks.any (fun kv => resolvesExternal c kv.1) = true →
     alookup s.name h.networks = none →
     ctxAddContainer c h opts =
       (.error (.invalidArg "container can only be added to at most one mapped network"), h)) ∧
    (∀ h', ctxAddContainer c h opts = (.ok (), h') →
     alookup s.name c.scopes = some s → ¬ s.name = "" → ¬ s.name = "default" →
     declaredExternals c h ≤ 1 → declaredExternals c h' ≤ 1) := by
  constructor
  · intro hext hall hany hnd
    have hconf := findExternalConflict_of_any c h.networks hall hany
    simp [ctxAddContainer, hres, hext, hnd, hconf]
  · intro h' heq hlook hn1 hn2 hle
    -- reduce the call along its control path
    simp only [ctxAddContainer, hres] at heq
    by_cases hdecl : (alookup s.name h.networks).isSome
    · simp only [hdecl, if_true] at heq
      obtain ⟨-, hh⟩ := Prod.mk.injEq .. ▸ heq
      rw [← hh]
      exact hle
    · rw [Bool.not_eq_true] at hdecl
      simp only [hdecl, Bool.false_eq_true, if_false] at heq
      -- external-count bound for the fresh-entry case, shared below
      have hcount : ∀ h1 : Handle, h1.networks = h.networks →
          ∀ ne : NetworkEndpoint,
          declaredExternals c { h1 with networks := aput s.name ne h1.networks } ≤ 1 := by
        intro h1 hnet ne
        have hfresh : alookup s.name h.networks = none := by
          cases hlk : alookup s.name h.networks with
          | none => rfl
          | some x => rw [hlk] at hdecl; simp at hdecl
        unfold declaredExternals
        show ((aput s.name ne h1.networks).filter _).length ≤ 1
        rw [hnet, filter_length_aput_fresh c h.networks s.name ne hfresh]
        by_cases hext : s.scopeType == externalScopeType
        · -- target external: success implies no declared network resolves
          -- to an external scope
          have hconf : findExternalConflict c h.networks = none := by
            cases hc : findExternalConflict c h.networks with
            | none => rfl
            | some err => simp only [hext, if_true, hc] at heq; cases heq
          have hzero : h.networks.filter (fun kv => resolvesExternal c kv.1) = [] :=
            List.filter_eq_nil_iff.mpr (fun kv hkv => by
              simpa using findExternalConflict_none c h.networks hconf kv hkv)
          rw [hzero]
          simp
          split <;> omega
        · -- target not external: the new entry resolves to s
          have hre : resolvesExternal c s.name = false := by
            rw [resolvesExternal, resolveScope_by_name c s hn1 hn2 hlook]
            simpa using hext
          rw [hre]
          simpa using hle
      -- walk the remaining failure points
      cases hconf2 : (if s.scopeType == externalScopeType then findExternalConflict c h.networks else none) with
      | some err => simp only [hconf2] at heq; cases heq
      | none =>
        simp only [hconf2] at heq
        cases hfind : (if s.scopeType == externalScopeType then
            opts.ports.find? (fun p => containsChar p ':') else none) with
        | some p => simp only [hfind] at heq; cases heq
        | none =>
          simp only [hfind] at heq
          by_cases hcl : (s.scopeType == externalScopeType && decide (opts.ports.length > 0) &&
              s.trust == TrustLevel.closed) = true
          · simp only [hcl, if_true] at heq; cases heq
          · rw [Bool.not_eq_true] at hcl
            simp only [hcl, Bool.false_eq_true, if_false] at heq
            cases hslot : (if s.scopeType == bridgeScopeType then scanBridgeSlot c h.networks else Except.ok 0) with
            | error e => simp only [hslot] at heq; cases heq
            | ok slot0 =>
              simp only [hslot] at heq
              by_cases hz : slot0 == 0
              · simp only [hz, if_true] at heq
                obtain ⟨-, hh⟩ := Prod.mk.injEq .. ▸ heq
                rw [← hh]
                exact hcount (addEthernetCardGo h s).2 (addEthernetCardGo_networks h s) _
              · simp only [hz, Bool.false_eq_true, if_false] at heq
                obtain ⟨-, hh⟩ := Prod.mk.injEq .. ▸ heq
                rw [← hh]
                exact hcount h rfl _

theorem c7_one_external_witness :
    ctxAddContainer extCtx handleExtc
      { scope := "ext1", ip := none, aliases := [], ports := [] } =
      (.error (.invalidArg "container can only be added to at most one mapped network"),
       handleExtc) :=
  (c7_one_external extCtx handleExtc
    { scope := "ext1", ip := none, aliases := [], ports := [] }
    (scopeOf extCtx "ext1") (by decide)).1
    (by decide) (by decide) (by decide) (by decide)

/-! Helpers for C1: what a successful in-memory bridge-scope creation
does to the context. -/

theorem reserveSubnet_fields (c : ContextState) (n : IPNet)
    (sp : AddressSpace) (b : Bool) (c1 : ContextState)
    (h : reserveSubnet c n = .ok (sp, b, c1)) :
    c1.kv = c.kv ∧ c1.bridgeLink = c.bridgeLink ∧ c1.scopes = c.scopes := by
  unfold reserveSubnet at h
  cases hover : checkNetOverlap c.scopes n with
  | error e => rw [hover] at h; cases h
  | ok u =>
    rw [hover] at h
    cases hres : c.defaultBridgePool.reserveIP4Net n with
    | ok pr =>
      rw [hres] at h
      cases h
      exact ⟨rfl, rfl, rfl⟩
    | error e =>
      rw [hres] at h
      cases h
      exact ⟨rfl, rfl, rfl⟩

theorem addScope_ok_fields (c : ContextState) (s0 s : Scope) (c1 : ContextState)
    (h : addScope c s0 = (.ok s, c1)) :
    s.scopeType = s0.scopeType ∧ s.name = s0.name ∧
    c1.kv = c.kv ∧ c1.bridgeLink = c.bridgeLink := by
  unfold addScope at h
  by_cases hdup : (alookup s0.name c.scopes).isSome
  · simp only [hdup, if_true] at h; cases h
  · rw [Bool.not_eq_true] at hdup
    simp only [hdup, Bool.false_eq_true, if_false] at h
    by_cases hun : isUnspecifiedSubnet s0.subnet = true
    · simp only [hun, if_true] at h
      cases h
      exact ⟨rfl, rfl, rfl, rfl⟩
    · rw [Bool.not_eq_true] at hun
      simp only [hun, Bool.false_eq_true, if_false] at h
      cases hrs : reserveSubnet c (s0.subnet.getD { base := 0, prefixLen := 0 }) with
      | error e => rw [hrs] at h; cases h
      | ok tpl =>
        obtain ⟨sp, b, c2⟩ := tpl
        obtain ⟨hkv2, hbl2, -⟩ := reserveSubnet_fields c _ sp b c2 hrs
        rw [hrs] at h
        cases hrp : reservePoolsGo sp s0.spaces with
        | error e => simp only [hrp] at h; cases h
        | ok spaces1 =>
          simp only [hrp] at h
          cases hrg : reserveGateway s0.gateway
              (some (sp.network.getD (s0.subnet.getD { base := 0, prefixLen := 0 })))
              (spaces1.map (reserveHousekeeping
                (sp.network.getD (s0.subnet.getD { base := 0, prefixLen := 0 }))
                s0.dns s0.gateway)) with
          | error e => simp only [hrg] at h; cases h
          | ok gw =>
            simp only [hrg] at h
            cases h
            exact ⟨rfl, rfl, hkv2, hbl2⟩

theorem newScopeCommon_ok_fields (c : ContextState) (id ty nw : String)
    (sd : ScopeData) (s : Scope) (c1 : ContextState)
    (h : newScopeCommon c id ty nw sd = (.ok s, c1)) :
    s.scopeType = ty ∧ c1.kv = c.kv ∧ c1.bridgeLink = c.bridgeLink := by
  unfold newScopeCommon at h
  cases hp : parsePools sd.pools with
  | none => rw [hp] at h; cases h
  | some spaces0 =>
    rw [hp] at h
    have := addScope_ok_fields c _ s c1 h
    exact ⟨this.1, this.2.2.1, this.2.2.2⟩

theorem newScopeGo_bridge_ok (c : ContextState) (sd : ScopeData)
    (s : Scope) (c1 : ContextState)
    (ht : sd.scopeType = bridgeScopeType)
    (h : newScopeGo c sd = (.ok s, c1)) :
    s.scopeType = bridgeScopeType ∧ c1.kv = c.kv ∧
    c1.bridgeLink = linkAddrAdd c.bridgeLink (s.gateway, prefixOf s.subnet) := by
  simp only [newScopeGo, ht, beq_self_eq_true, if_true] at h
  split at h
  · simp at h
  · split at h
    · simp at h
    · simp only [newBridgeScope] at h
      split at h
      · simp at h
      · split at h
        · simp at h
        · split at h
          · simp at h
          · rename_i s0 c' heq
            obtain ⟨hs, hc⟩ := Prod.mk.injEq .. ▸ h
            obtain ⟨hty, hkv, hbl⟩ :=
              newScopeCommon_ok_fields c (uidNew sd) bridgeScopeType
                c.config.bridgeNetwork _ s0 c' heq
            cases hs
            refine ⟨hty, ?_, ?_⟩
            · rw [← hc]
              exact hkv
            · rw [← hc]
              simp [hbl]

theorem linkAddrDel_linkAddrAdd (l : List (Nat × Nat)) (a : Nat × Nat)
    (h : a ∉ l) : linkAddrDel (linkAddrAdd l a) a = l := by
  have hc : l.contains a = false := by
    cases hcon : l.contains a
    · rfl
    · exact absurd (List.elem_iff.mp hcon) h
  rw [linkAddrAdd, hc]
  simp only [Bool.false_eq_true, if_false, linkAddrDel, List.filter_append]
  have h1 : l.filter (fun a' => !(a' == a)) = l :=
    List.filter_eq_self.mpr (fun x hx => by
      have hne : ¬ x = a := fun he => h (he ▸ hx)
      simp [hne])
  have h2 : [a].filter (fun a' => !(a' == a)) = [] := by simp
  rw [h1, h2, List.append_nil]

/-- C1 amended: when persisting a freshly created bridge scope fails
(`KV.Put` error), `NewScope` returns the error, the scope is absent from
`scopes`, and the gateway address added to the bridge link is removed —
but a sub-pool carved from `defaultBridgePool` for the scope's subnet is
NOT released: the rollback (`deleteScope`) never returns the carved
range to the pool, which still carries it afterwards. -/
theorem c1_kv_rollback_amended (c : ContextState) (sd : ScopeData) (s : Scope)
    (c1 : ContextState) (kvs : KVState) (r1 r2 : Nat)
    (hcreate : newScopeGo c sd = (.ok s, c1))
    (ht : sd.scopeType = bridgeScopeType)
    (hkv : c.kv = some kvs) (hfail : kvs.putFails = true)
    (hgw : (s.gateway, prefixOf s.subnet) ∉ c.bridgeLink)
    (hcarve : c1.defaultBridgePool.reservedRanges =
        c.defaultBridgePool.reservedRanges ++ [(r1, r2)]) :
    ctxNewScope c sd = (.error .kvPutFailed, deleteScopeGo c1 s) ∧
    alookup s.name (deleteScopeGo c1 s).scopes = none ∧
    (deleteScopeGo c1 s).bridgeLink = c.bridgeLink ∧
    (deleteScopeGo c1 s).defaultBridgePool.reservedRanges =
      c.defaultBridgePool.reservedRanges ++ [(r1, r2)] := by
  obtain ⟨hty, hkv1, hbl1⟩ := newScopeGo_bridge_ok c sd s c1 ht hcreate
  have hdel_pool : (deleteScopeGo c1 s).defaultBridgePool = c1.defaultBridgePool := by
    unfold deleteScopeGo
    by_cases hb : s.scopeType == bridgeScopeType <;> simp [hb]
  have hdel_scopes : (deleteScopeGo c1 s).scopes = aerase s.name c1.scopes := by
    unfold deleteScopeGo
    by_cases hb : s.scopeType == bridgeScopeType <;> simp [hb]
  have hdel_link : (deleteScopeGo c1 s).bridgeLink =
      linkAddrDel c1.bridgeLink (s.gateway, prefixOf s.subnet) := by
    unfold deleteScopeGo
    simp [hty]
  refine ⟨?_, ?_, ?_, ?_⟩
  · simp only [ctxNewScope, hcreate, hkv1, hkv, hfail, if_true]
  · rw [hdel_scopes]
    exact alookup_aerase_self s.name c1.scopes
  · rw [hdel_link, hbl1]
    exact linkAddrDel_linkAddrAdd c.bridgeLink (s.gateway, prefixOf s.subnet) hgw
  · rw [hdel_pool, hcarve]

theorem c1_kv_rollback_amended_witness :
    ctxNewScope baseCtxKV sdS1 = (.error .kvPutFailed, deleteScopeGo s1Ctx s1Scope) ∧
    alookup s1Scope.name (deleteScopeGo s1Ctx s1Scope).scopes = none ∧
    (deleteScopeGo s1Ctx s1Scope).bridgeLink = baseCtxKV.bridgeLink ∧
    (deleteScopeGo s1Ctx s1Scope).defaultBridgePool.reservedRanges =
      baseCtxKV.defaultBridgePool.reservedRanges ++
        [(ipv4 172 20 0 0, ipv4 172 20 255 255)] :=
  c1_kv_rollback_amended baseCtxKV sdS1 s1Scope s1Ctx
    { store := [], putFails := true, delFails := false }
    (ipv4 172 20 0 0) (ipv4 172 20 255 255)
    (by decide) rfl (by decide) rfl (by decide) (by decide)

/-! ## C3: default-network election -/

/-- C3 counterexample: the handle declares `ext1` (external AND
internal) before `net1` (bridge, not internal); the bind succeeds, the
loop marks `ext1` as default and immediately clears the mark because the
scope is internal, and the fallback never runs because an external
endpoint was seen — so no endpoint at all is marked default, although
the claim requires the first non-internal endpoint (`net1`) to end up
marked. -/
theorem c3_default_election_counterexample :
    (ctxBindContainer extCtx handleC3).1.toOption.isSome = true ∧
    handleC3.networks.map Prod.fst = ["ext1", "net1"] ∧
    ((alookup "ext1" extCtx.scopes).map (fun s => (s.scopeType, s.internal))) =
      some (externalScopeType, true) ∧
    ((alookup "net1" extCtx.scopes).map (fun s => (s.scopeType, s.internal))) =
      some (bridgeScopeType, false) ∧
    handleC3.networks.all (fun kv => !kv.2.isDefault) = true ∧
    (ctxBindContainer extCtx handleC3).2.2.networks.all (fun kv => !kv.2.isDefault) = true := by
  decide

/-- Type and internal flag of a resolved scope: the only scope data the
default election consults. -/
def scopeSig : Option Scope → Option (String × Bool) :=
  Option.map (fun s => (s.scopeType, s.internal))

/-- The first declared network (by name) whose scope is external,
together with that scope's internal flag. -/
def firstExternalNI (scopes : List (String × Scope)) : List String → Option (String × Bool)
| [] => none
| nm :: rest =>
  match scopeSig (alookup nm scopes) with
  | some ti => if ti.1 == externalScopeType then some (nm, ti.2) else firstExternalNI scopes rest
  | none => firstExternalNI scopes rest

/-- The first declared network whose scope is not internal (names whose
scope is missing count as non-internal, as in the fallback loop). -/
def firstNonInternalName (scopes : List (String × Scope)) : List String → Option String
| [] => none
| nm :: rest =>
  match scopeSig (alookup nm scopes) with
  | some ti => if ti.2 then firstNonInternalName scopes rest else some nm
  | none => some nm

/-- The names `bindContainer` leaves marked as default, per the amended
claim: the first external endpoint when its scope is not internal; no
endpoint when the first external endpoint's scope is internal; otherwise
(no external endpoint at all) the first non-internal endpoint. -/
def defaultNames (scopes : List (String × Scope)) (names : List String) : List String :=
  match firstExternalNI scopes names with
  | some nmi => if nmi.2 then [] else [nmi.1]
  | none =>
    match firstNonInternalName scopes names with
    | some nm => [nm]
    | none => []

theorem firstExternalNI_sig (s1 s2 : List (String × Scope))
    (hsig : ∀ nm, scopeSig (alookup nm s2) = scopeSig (alookup nm s1)) :
    ∀ names, firstExternalNI s2 names = firstExternalNI s1 names := by
  intro names
  induction names with
  | nil => rfl
  | cons nm rest ih =>
    rw [firstExternalNI, firstExternalNI, hsig nm]
    cases scopeSig (alookup nm s1) with
    | none => exact ih
    | some ti =>
      by_cases ht : ti.1 == externalScopeType <;> simp [ht, ih]

theorem firstNonInternalName_sig (s1 s2 : List (String × Scope))
    (hsig : ∀ nm, scopeSig (alookup nm s2) = scopeSig (alookup nm s1)) :
    ∀ names, firstNonInternalName s2 names = firstNonInternalName s1 names := by
  intro names
  induction names with
  | nil => rfl
  | cons nm rest ih =>
    rw [firstNonInternalName, firstNonInternalName, hsig nm]
    cases scopeSig (alookup nm s1) with
    | none => rfl
    | some ti =>
      by_cases ht : ti.2 <;> simp [ht, ih]

theorem scopeAddContainer_sig (s : Scope) (con : Container) (e : Endpoint)
    (s1 : Scope) (e1 : Endpoint) (h : s.addContainer con e = .ok (s1, e1)) :
    s1.scopeType = s.scopeType ∧ s1.internal = s.internal ∧ s1.name = s.name := by
  unfold Scope.addContainer at h
  by_cases hd : s.isDynamic
  · simp only [hd, if_true] at h
    cases h
    exact ⟨rfl, rfl, rfl⟩
  · rw [Bool.not_eq_true] at hd
    simp only [hd, Bool.false_eq_true, if_false] at h
    by_cases hip : e.ip == 0
    · simp only [hip, if_true] at h
      cases halloc : allocFromSpaces s.spaces with
      | none => rw [halloc] at h; cases h
      | some pr =>
        rw [halloc] at h
        cases h
        exact ⟨rfl, rfl, rfl⟩
    · rw [Bool.not_eq_true] at hip
      simp only [hip, Bool.false_eq_true, if_false] at h
      cases hres : reserveInSpaces s.spaces e.ip with
      | none => rw [hres] at h; cases h
      | some spaces' =>
        rw [hres] at h
        cases h
        exact ⟨rfl, rfl, rfl⟩

theorem sig_aput (scopes : List (String × Scope)) (nm : String) (s s' : Scope)
    (hlk : alookup nm scopes = some s)
    (ht : s'.scopeType = s.scopeType) (hi : s'.internal = s.internal) :
    ∀ nm', scopeSig (alookup nm' (aput nm s' scopes)) = scopeSig (alookup nm' scopes) := by
  intro nm'
  by_cases h : nm' = nm
  · subst h
    rw [alookup_aput_self, hlk]
    simp [scopeSig, ht, hi]
  · rw [alookup_aput_ne nm nm' s' scopes h]

/-- The marking behaviour of `bindContainer`'s per-network loop: it
preserves the scope signatures and the network names; the outgoing
default-marked flag records whether any declared network's scope is
external; and — starting from unmarked endpoints — the loop leaves
exactly the first external endpoint marked, unless the incoming flag was
already set or that scope is internal. -/
theorem updateNE_isDefault (ne : NetworkEndpoint) (s1 : Scope) (epIP : Nat)
    (dm : Bool) (h0 : ne.isDefault = false) :
    (updateNE ne s1 epIP dm).1.isDefault =
      (!s1.internal && (!dm && (s1.scopeType == externalScopeType))) := by
  unfold updateNE
  by_cases hi : s1.internal <;>
    by_cases hx : (!dm && (s1.scopeType == externalScopeType)) = true <;>
      cases hip : isUnspecifiedIP epIP <;>
        simp [hi, hx, hip, h0]

theorem updateNE_dm (ne : NetworkEndpoint) (s1 : Scope) (epIP : Nat) (dm : Bool) :
    (updateNE ne s1 epIP dm).2 = (dm || (s1.scopeType == externalScopeType)) := by
  unfold updateNE
  by_cases hx : (!dm && (s1.scopeType == externalScopeType)) = true <;>
    cases hip : isUnspecifiedIP epIP <;>
      by_cases hi : s1.internal <;>
        simp [hi, hx, hip]

theorem bindLoop_marks (containers : List (String × Container)) (con : Container) :
    ∀ (ns : List (String × NetworkEndpoint)) (scopes : List (String × Scope)) (dm : Bool)
      (scopes' : List (String × Scope)) (ns' : List (String × NetworkEndpoint))
      (dm' : Bool) (eps : List Endpoint) (ws : List (String × Container)),
    bindLoop containers con scopes dm ns = .bindOk scopes' ns' dm' eps ws →
    ns.all (fun kv => !kv.2.isDefault) = true →
    (∀ nm, scopeSig (alookup nm scopes') = scopeSig (alookup nm scopes)) ∧
    ns'.map Prod.fst = ns.map Prod.fst ∧
    dm' = (dm || (firstExternalNI scopes (ns.map Prod.fst)).isSome) ∧
    ((ns'.filter (fun kv => kv.2.isDefault)).map Prod.fst =
      if dm then [] else
        match firstExternalNI scopes (ns.map Prod.fst) with
        | some nmi => if nmi.2 then [] else [nmi.1]
        | none => []) := by
  intro ns
  induction ns with
  | nil =>
    intro scopes dm scopes' ns' dm' eps ws h hall
    simp only [bindLoop, BindRes.bindOk.injEq] at h
    obtain ⟨h1, h2, h3, -, -⟩ := h
    subst h1; subst h2; subst h3
    refine ⟨fun nm => rfl, rfl, by simp [firstExternalNI],
      by cases dm <;> simp [firstExternalNI]⟩
  | cons hd tl ih =>
    intro scopes dm scopes' ns' dm' eps ws h hall
    obtain ⟨nm, ne⟩ := hd
    rw [List.all_cons, Bool.and_eq_true] at hall
    obtain ⟨hne0, halltl⟩ := hall
    simp only [Bool.not_eq_eq_eq_not, Bool.not_true] at hne0
    simp only [bindLoop] at h
    split at h
    · simp at h
    · rename_i s hlk
      split at h
      · simp at h
      · rename_i s1 e1 hadd
        obtain ⟨hty1, hint1, -⟩ := scopeAddContainer_sig s con _ s1 e1 hadd
        split at h
        · simp at h
        · rename_i portStrs hps
          split at h
          · simp at h
          · rename_i e2 hap
            split at h
            · simp at h
            · rename_i e3 writes1 hpa
              split at h
              · rename_i scopes3 ns3 dm3 eps3 ws3 hrec
                simp only [BindRes.bindOk.injEq] at h
                obtain ⟨h1, h2, h3, -, -⟩ := h
                subst h1; subst h2; subst h3
                have hsig1 : ∀ nm', scopeSig (alookup nm' (aput nm s1 scopes)) =
                    scopeSig (alookup nm' scopes) :=
                  sig_aput scopes nm s s1 hlk hty1 hint1
                have hlk1 : alookup nm (aput nm s1 scopes) = some s1 :=
                  alookup_aput_self nm s1 scopes
                have hsig12 : ∀ nm', scopeSig (alookup nm'
                    (aput nm (scopeWithUpdatedEndpoint s1 con.id e3) (aput nm s1 scopes))) =
                    scopeSig (alookup nm' scopes) := by
                  intro nm'
                  rw [sig_aput (aput nm s1 scopes) nm s1
                      (scopeWithUpdatedEndpoint s1 con.id e3) hlk1 rfl rfl nm']
                  exact hsig1 nm'
                obtain ⟨ihsig, ihmap, ihdm, ihmarks⟩ := ih _ _ _ _ _ _ _ hrec halltl
                have hsigall : ∀ nm', scopeSig (alookup nm' scopes3) =
                    scopeSig (alookup nm' scopes) :=
                  fun nm' => (ihsig nm').trans (hsig12 nm')
                have hfe : firstExternalNI
                    (aput nm (scopeWithUpdatedEndpoint s1 con.id e3) (aput nm s1 scopes))
                    (tl.map Prod.fst) = firstExternalNI scopes (tl.map Prod.fst) :=
                  firstExternalNI_sig scopes _ hsig12 (tl.map Prod.fst)
                have hmark : (updateNE ne s1 e2.ip dm).1.isDefault =
                    (!s1.internal && (!dm && (s1.scopeType == externalScopeType))) :=
                  updateNE_isDefault ne s1 e2.ip dm hne0
                have hdm1 : (updateNE ne s1 e2.ip dm).2 =
                    (dm || (s1.scopeType == externalScopeType)) :=
                  updateNE_dm ne s1 e2.ip dm
                have hsig_nm : scopeSig (alookup nm scopes) = some (s.scopeType, s.internal) := by
                  rw [hlk]; rfl
                refine ⟨hsigall, by simp [ihmap], ?_, ?_⟩
                · rw [hdm1, hfe] at ihdm
                  rw [ihdm, hty1, List.map_cons]
                  simp only [firstExternalNI, hsig_nm]
                  by_cases hT : (s.scopeType == externalScopeType) = true <;>
                    simp [hT]
                · rw [hdm1, hfe] at ihmarks
                  rw [List.filter_cons]
                  simp only [hmark, hty1, hint1]
                  rw [List.map_cons]
                  simp only [firstExternalNI, hsig_nm]
                  by_cases hT : (s.scopeType == externalScopeType) = true
                  · by_cases hI : s.internal = true
                    · cases dm <;> simp [hT, hI, hty1, ihmarks]
                    · rw [Bool.not_eq_true] at hI
                      cases dm <;> simp [hT, hI, hty1, ihmarks]
                  · rw [Bool.not_eq_true] at hT
                    cases dm <;> simp [hT, hty1, ihmarks]
              · simp at h

/-- The fallback election marks exactly the first non-internal
endpoint (and preserves the network names). -/
theorem markFallback_marks (scopes : List (String × Scope)) :
    ∀ ns : List (String × NetworkEndpoint),
    ns.all (fun kv => !kv.2.isDefault) = true →
    (markFallback scopes ns).map Prod.fst = ns.map Prod.fst ∧
    ((markFallback scopes ns).filter (fun kv => kv.2.isDefault)).map Prod.fst =
      (match firstNonInternalName scopes (ns.map Prod.fst) with
       | some nm => [nm]
       | none => []) := by
  intro ns
  induction ns with
  | nil => intro _; exact ⟨rfl, rfl⟩
  | cons hd tl ih =>
    intro hall
    obtain ⟨nm, ne⟩ := hd
    rw [List.all_cons, Bool.and_eq_true] at hall
    obtain ⟨hne0, halltl⟩ := hall
    simp only [Bool.not_eq_eq_eq_not, Bool.not_true] at hne0
    have htlnil : tl.filter (fun kv => kv.2.isDefault) = [] :=
      List.filter_eq_nil_iff.mpr (fun kv hkv => by
        have := List.all_eq_true.mp halltl kv hkv
        simpa using this)
    cases hlk : alookup nm scopes with
    | some s =>
      by_cases hI : s.internal = true
      · obtain ⟨ihm, ihf⟩ := ih halltl
        constructor
        · simp [markFallback, hlk, hI, ihm]
        · simp only [markFallback, hlk, hI, if_true, List.filter_cons, hne0,
            Bool.false_eq_true, if_false, List.map_cons]
          rw [ihf]
          simp [firstNonInternalName, scopeSig, hlk, hI]
      · rw [Bool.not_eq_true] at hI
        constructor
        · simp [markFallback, hlk, hI]
        · simp [markFallback, hlk, hI, List.filter_cons, htlnil,
            firstNonInternalName, scopeSig]
    | none =>
      constructor
      · simp [markFallback, hlk]
      · simp [markFallback, hlk, List.filter_cons, htlnil,
          firstNonInternalName, scopeSig]

/-- C3 amended: on a successful first bind of a handle whose endpoints
start unmarked, the endpoints left marked as default are exactly: the
first endpoint whose scope is external — unless that scope is internal,
in which case the mark is cleared again and NO endpoint is default (the
fallback does not run because an external endpoint was seen) — and, only
when the handle has no external endpoint at all, the first endpoint
whose scope is not internal. -/
theorem c3_default_election_amended (c : ContextState) (h : Handle)
    (eps : List Endpoint) (c' : ContextState) (h' : Handle)
    (hbind : ctxBindContainer c h = (.ok eps, c', h'))
    (hfresh : alookup (uidParse h.execID) c.containers = none)
    (hid : ¬ uidParse h.execID = "")
    (hinit : h.networks.all (fun kv => !kv.2.isDefault) = true) :
    (h'.networks.filter (fun kv => kv.2.isDefault)).map Prod.fst =
      defaultNames c.scopes (h.networks.map Prod.fst) := by
  simp only [ctxBindContainer, bindContainerGo, ctxContainerOfHandle, hid,
    hfresh, if_false] at hbind
  cases hloop : bindLoop c.containers { id := uidParse h.execID, name := h.execName }
      c.scopes false h.networks with
  | bindFail err scopes' ns' =>
    rw [hloop] at hbind
    simp at hbind
  | bindOk scopes1 ns1 dm1 eps1 ws =>
    rw [hloop] at hbind
    have hh' : h' = { h with networks := if !dm1 then markFallback scopes1 ns1 else ns1 } :=
      (congrArg (fun t => t.2.2) hbind).symm
    obtain ⟨hsig, hmap, hdm, hmarks⟩ :=
      bindLoop_marks c.containers { id := uidParse h.execID, name := h.execName }
        h.networks c.scopes false scopes1 ns1 dm1 eps1 ws hloop hinit
    rw [Bool.false_or] at hdm
    cases hdmv : dm1 with
    | true =>
      rw [hdmv] at hdm hh'
      obtain ⟨nmi, hfi⟩ := Option.isSome_iff_exists.mp hdm.symm
      rw [hh']
      simp only [Bool.not_true, Bool.false_eq_true, if_false]
      rw [hmarks, hfi]
      simp [defaultNames, hfi]
    | false =>
      rw [hdmv] at hdm hh'
      have hfnone : firstExternalNI c.scopes (h.networks.map Prod.fst) = none :=
        Option.not_isSome_iff_eq_none.mp (fun hs => by rw [← hdm] at hs; cases hs)
      rw [hfnone] at hmarks
      simp only [Bool.false_eq_true, if_false] at hmarks
      have hall1 : ns1.all (fun kv => !kv.2.isDefault) = true := by
        have hnil : ns1.filter (fun kv => kv.2.isDefault) = [] := by
          cases hf : ns1.filter (fun kv => kv.2.isDefault) with
          | nil => rfl
          | cons a b => rw [hf] at hmarks; simp at hmarks
        rw [List.all_eq_true]
        intro kv hkv
        have : kv ∉ ns1.filter (fun kv => kv.2.isDefault) := by
          rw [hnil]; simp
        rcases hdf : kv.2.isDefault with _ | _
        · simp
        · exact absurd (List.mem_filter.mpr ⟨hkv, hdf⟩) this
      obtain ⟨hfm, hff⟩ := markFallback_marks scopes1 ns1 hall1
      rw [hh']
      simp only [Bool.not_false, if_true]
      rw [hff, hmap,
        firstNonInternalName_sig c.scopes scopes1 hsig (h.networks.map Prod.fst)]
      simp [defaultNames, hfnone]

/-- The bind outcome on the C3 fixture, for the witness below. -/
def c3BindEps : List Endpoint :=
  match (ctxBindContainer extCtx handleC3).1 with
  | .ok e => e
  | .error _ => []

def c3BindCtx : ContextState := (ctxBindContainer extCtx handleC3).2.1
def c3BindHandle : Handle := (ctxBindContainer extCtx handleC3).2.2

theorem c3_default_election_amended_witness :
    (((ctxBindContainer extCtx handleC3).2.2.networks.filter
        (fun kv => kv.2.isDefault)).map Prod.fst) =
      defaultNames extCtx.scopes (handleC3.networks.map Prod.fst) :=
  c3_default_election_amended extCtx handleC3 c3BindEps c3BindCtx c3BindHandle
    (by decide) (by decide) (by decide) (by decide)

/-! ## C9: consistency of the three container index keys -/

/-- The three keys a bound container is indexed under. -/
def containerKeys (con : Container) : List String :=
  [con.id, uidTruncate con.id, con.name]

/-- The three-key insertion bindContainer performs on the containers index
(context.go:825-827). -/
def put3 (con : Container) (m : List (String × Container)) : List (String × Container) :=
  aput con.name con (aput (uidTruncate con.id) con (aput con.id con m))

/-- The three-key deletion UnbindContainer performs on the containers index
(context.go:925-927). -/
def erase3 (con : Container) (m : List (String × Container)) : List (String × Container) :=
  aerase con.name (aerase (uidTruncate con.id) (aerase con.id m))

/-- The three container indexes agree: every entry of the map belongs to
some container's key set, and that container is retrievable under all
three of its keys. -/
def IndexesAgree (c : ContextState) : Prop :=
  ∀ k con, alookup k c.containers = some con →
    k ∈ containerKeys con ∧
    ∀ k' ∈ containerKeys con, alookup k' c.containers = some con

/-- Success-only bind/unbind sequences from a state with no bound
containers, with the amended claim's freshness proviso: a handle that
actually binds brings three keys that are absent from the index. -/
inductive ReachBU : ContextState → Prop where
| init (c : ContextState) (hc : c.containers = []) : ReachBU c
| bind (c : ContextState) (h : Handle) (eps : List Endpoint)
    (c' : ContextState) (h' : Handle) (hr : ReachBU c)
    (hkeys : alookup (uidParse h.execID) c.containers = none →
      ∀ k ∈ containerKeys { id := uidParse h.execID, name := h.execName },
        alookup k c.containers = none)
    (hb : ctxBindContainer c h = (.ok eps, c', h')) : ReachBU c'
| unbind (c : ContextState) (h : Handle) (r : Option (List Endpoint))
    (c' : ContextState) (h' : Handle) (hr : ReachBU c)
    (hb : ctxUnbindContainer c h = (.ok r, c', h')) : ReachBU c'

theorem containerOfHandle_rnfe (c : ContextState) (h : Handle) (m : String)
    (hC : ctxContainerOfHandle c h = .error (.resourceNotFound m)) :
    alookup (uidParse h.execID) c.containers = none := by
  unfold ctxContainerOfHandle at hC
  by_cases hid : uidParse h.execID = ""
  · simp [hid] at hC
  · simp only [hid, if_false] at hC
    cases hlk : alookup (uidParse h.execID) c.containers with
    | none => rfl
    | some con => rw [hlk] at hC; cases hC

theorem containerOfHandle_ok (c : ContextState) (h : Handle) (con : Container)
    (hC : ctxContainerOfHandle c h = .ok con) :
    alookup (uidParse h.execID) c.containers = some con := by
  unfold ctxContainerOfHandle at hC
  by_cases hid : uidParse h.execID = ""
  · simp [hid] at hC
  · simp only [hid, if_false] at hC
    cases hlk : alookup (uidParse h.execID) c.containers with
    | none => rw [hlk] at hC; cases hC
    | some con' =>
      rw [hlk] at hC
      cases hC
      rfl

/-- What a successful `BindContainer` does to the containers index:
either the idempotent no-op, or the three-key insertion of the fresh
container. -/
theorem bind_containers (c : ContextState) (h : Handle) (eps : List Endpoint)
    (c' : ContextState) (h' : Handle)
    (hb : ctxBindContainer c h = (.ok eps, c', h')) :
    c'.containers = c.containers ∨
    (alookup (uidParse h.execID) c.containers = none ∧
     c'.containers =
       put3 { id := uidParse h.execID, name := h.execName } c.containers) := by
  cases hC : ctxContainerOfHandle c h with
  | ok con =>
    simp only [ctxBindContainer, bindContainerGo, hC] at hb
    left
    cases hb
    rfl
  | error e =>
    cases e with
    | resourceNotFound m =>
      right
      refine ⟨containerOfHandle_rnfe c h m hC, ?_⟩
      simp only [ctxBindContainer, bindContainerGo, hC] at hb
      cases hloop : bindLoop c.containers { id := uidParse h.execID, name := h.execName }
          c.scopes false h.networks with
      | bindFail err scopes' ns' =>
        rw [hloop] at hb
        simp at hb
      | bindOk scopes1 ns1 dm1 eps1 ws =>
        rw [hloop] at hb
        cases hb
        rfl
    | duplicateResource m => simp only [ctxBindContainer, bindContainerGo, hC] at hb; simp at hb
    | invalidArg m => simp only [ctxBindContainer, bindContainerGo, hC] at hb; simp at hb
    | kvPutFailed => simp only [ctxBindContainer, bindContainerGo, hC] at hb; simp at hb
    | kvDeleteFailed => simp only [ctxBindContainer, bindContainerGo, hC] at hb; simp at hb
    | panicErr m => simp only [ctxBindContainer, bindContainerGo, hC] at hb; simp at hb

/-- What a successful `UnbindContainer` does to the containers index:
either the not-bound no-op, or the three-key deletion of the resolved
container. -/
theorem unbind_containers (c : ContextState) (h : Handle)
    (r : Option (List Endpoint)) (c' : ContextState) (h' : Handle)
    (hb : ctxUnbindContainer c h = (.ok r, c', h')) :
    c'.containers = c.containers ∨
    (∃ con, alookup (uidParse h.execID) c.containers = some con ∧
      c'.containers = erase3 con c.containers) := by
  cases hC : ctxContainerOfHandle c h with
  | ok con =>
    simp only [ctxUnbindContainer, hC] at hb
    right
    refine ⟨con, containerOfHandle_ok c h con hC, ?_⟩
    cases hloop : unbindLoop con c.scopes h.networks with
    | uFail err scopes' ns' =>
      rw [hloop] at hb
      simp at hb
    | uOk scopes1 ns1 names eps =>
      rw [hloop] at hb
      cases hb
      rfl
  | error e =>
    cases e with
    | resourceNotFound m =>
      simp only [ctxUnbindContainer, hC] at hb
      left
      cases hb
      rfl
    | duplicateResource m => simp only [ctxUnbindContainer, hC] at hb; simp at hb
    | invalidArg m => simp only [ctxUnbindContainer, hC] at hb; simp at hb
    | kvPutFailed => simp only [ctxUnbindContainer, hC] at hb; simp at hb
    | kvDeleteFailed => simp only [ctxUnbindContainer, hC] at hb; simp at hb
    | panicErr m => simp only [ctxUnbindContainer, hC] at hb; simp at hb

theorem alookup_put3 (m : List (String × Container)) (con0 : Container) (k : String) :
    alookup k (put3 con0 m) =
      if k ∈ containerKeys con0 then some con0 else alookup k m := by
  simp only [put3, containerKeys, List.mem_cons, List.not_mem_nil, or_false]
  by_cases h1 : k = con0.name
  · rw [if_pos (Or.inr (Or.inr h1)), h1, alookup_aput_self]
  · rw [alookup_aput_ne _ _ _ _ h1]
    by_cases h2 : k = uidTruncate con0.id
    · rw [if_pos (Or.inr (Or.inl h2)), h2, alookup_aput_self]
    · rw [alookup_aput_ne _ _ _ _ h2]
      by_cases h3 : k = con0.id
      · rw [if_pos (Or.inl h3), h3, alookup_aput_self]
      · rw [alookup_aput_ne _ _ _ _ h3,
          if_neg (not_or.mpr ⟨h3, not_or.mpr ⟨h2, h1⟩⟩)]

theorem alookup_erase3 (m : List (String × Container)) (con0 : Container) (k : String) :
    alookup k (erase3 con0 m) =
      if k ∈ containerKeys con0 then none else alookup k m := by
  simp only [erase3, containerKeys, List.mem_cons, List.not_mem_nil, or_false]
  by_cases h1 : k = con0.name
  · rw [if_pos (Or.inr (Or.inr h1)), h1, alookup_aerase_self]
  · rw [alookup_aerase_ne _ _ _ h1]
    by_cases h2 : k = uidTruncate con0.id
    · rw [if_pos (Or.inr (Or.inl h2)), h2, alookup_aerase_self]
    · rw [alookup_aerase_ne _ _ _ h2]
      by_cases h3 : k = con0.id
      · rw [if_pos (Or.inl h3), h3, alookup_aerase_self]
      · rw [alookup_aerase_ne _ _ _ h3,
          if_neg (not_or.mpr ⟨h3, not_or.mpr ⟨h2, h1⟩⟩)]

/-- C9 amended: for success-only bind/unbind sequences in which every
freshly bound container's three keys (long id, truncated id, name) are
absent from the index at bind time, the three container indexes always
agree: every bound container is retrievable under exactly its three
keys, all mapping to it, and unbind deletes exactly those keys.  (The
freshness proviso is forced by the counterexample: two successful binds
sharing a name leave the indexes disagreeing.) -/
theorem c9_container_index_amended (c : ContextState) (hr : ReachBU c) :
    IndexesAgree c := by
  induction hr with
  | init c hc =>
    intro k con hlk
    rw [hc] at hlk
    simp [alookup] at hlk
  | bind c h eps c' h' hr hkeys hb ih =>
    rcases bind_containers c h eps c' h' hb with hsame | ⟨hnone, hcont⟩
    · intro k con hlk
      rw [hsame] at hlk
      obtain ⟨hk, hall⟩ := ih k con hlk
      exact ⟨hk, fun k' hk' => by rw [hsame]; exact hall k' hk'⟩
    · have hf := hkeys hnone
      intro k con hlk
      rw [hcont, alookup_put3] at hlk
      by_cases hin : k ∈ containerKeys { id := uidParse h.execID, name := h.execName }
      · rw [if_pos hin] at hlk
        cases hlk
        refine ⟨hin, fun k' hk' => ?_⟩
        rw [hcont, alookup_put3, if_pos hk']
      · rw [if_neg hin] at hlk
        obtain ⟨hk, hall⟩ := ih k con hlk
        refine ⟨hk, fun k' hk' => ?_⟩
        have hnotnew : k' ∉ containerKeys
            { id := uidParse h.execID, name := h.execName } := by
          intro hmem
          have hn := hf k' hmem
          rw [hall k' hk'] at hn
          cases hn
        rw [hcont, alookup_put3, if_neg hnotnew]
        exact hall k' hk'
  | unbind c h r c' h' hr hb ih =>
    rcases unbind_containers c h r c' h' hb with hsame | ⟨con0, hsome, hcont⟩
    · intro k con hlk
      rw [hsame] at hlk
      obtain ⟨hk, hall⟩ := ih k con hlk
      exact ⟨hk, fun k' hk' => by rw [hsame]; exact hall k' hk'⟩
    · obtain ⟨hk0, hall0⟩ := ih (uidParse h.execID) con0 hsome
      intro k con hlk
      rw [hcont, alookup_erase3] at hlk
      by_cases hin : k ∈ containerKeys con0
      · rw [if_pos hin] at hlk; cases hlk
      · rw [if_neg hin] at hlk
        obtain ⟨hk, hall⟩ := ih k con hlk
        refine ⟨hk, fun k' hk' => ?_⟩
        have hnotdel : k' ∉ containerKeys con0 := by
          intro hmem
          have hcon0 : alookup k' c.containers = some con0 := hall0 k' hmem
          have hcon : alookup k' c.containers = some con := hall k' hk'
          rw [hcon0] at hcon
          cases hcon
          exact hin hk
        rw [hcont, alookup_erase3, if_neg hnotdel]
        exact hall k' hk'

theorem c9_container_index_amended_witness :
    ReachBU stBoundA ∧ IndexesAgree stBoundA :=
  have hreach : ReachBU stBoundA :=
    .bind extCtx handleA
      (match (ctxBindContainer extCtx handleA).1 with | .ok e => e | .error _ => [])
      stBoundA (ctxBindContainer extCtx handleA).2.2
      (.init extCtx (by decide))
      (fun _ => by decide)
      (by decide)
  ⟨hreach, c9_container_index_amended stBoundA hreach⟩

end VicNet
